import Mathlib

/-!
Verification of the ComfyUI LTX-2 serverless handler (`src/handler.py`)
against its natural-language specification.

The development is a shallow embedding of `handler.py`:
* JSON values are modelled by `Val`;
* Python dicts are association lists (`List (String × Val)`) preserving
  insertion order, as Python dicts do;
* the workflow graph is an association list from node id to `Node`;
* side effects (HTTP calls, file writes) are recorded in an explicit
  effect trace; external-world responses (server readiness, queue
  response, poll responses, filesystem contents, ffprobe output, the
  random source and the wall clock) are supplied by an `Env` record;
* Python exceptions are modelled by `Except PyExc`;
* `random.randint(0, 2**31 - 1)` is modelled as `fun r => r % 2^31`
  applied to an arbitrary natural-number random source from `Env`.
-/

set_option autoImplicit false

namespace Handler

/-- JSON-like Python values, as they occur in job inputs, workflow graphs
and results.  Python floats are modelled as rationals. -/
inductive Val where
  | null
  | bool (b : Bool)
  | int (n : Int)
  | float (q : Rat)
  | str (s : String)
  | list (xs : List Val)
  | obj (kvs : List (String × Val))

/-- Python truthiness (`bool(v)`): `None`, `False`, `0`, `0.0`, `""`,
`[]`, `{}` are falsy. -/
def pyTruthy : Val → Bool
  | .null => false
  | .bool b => b
  | .int n => n != 0
  | .float q => q != 0
  | .str s => s ≠ ""
  | .list xs => !xs.isEmpty
  | .obj kvs => !kvs.isEmpty

/-- Python `v == n` for an integer literal `n` (ints, floats and bools
compare equal to numbers in Python). -/
def pyEqInt (v : Val) (n : Int) : Bool :=
  match v with
  | .int m => m == n
  | .float q => q == (n : Rat)
  | .bool b => (if b then (1 : Int) else 0) == n
  | _ => false

/-- Python `v == "t"` for an optional value (`dict.get` result): only a
string equal to `t` compares equal. -/
def pyEqStrOpt (v : Option Val) (t : String) : Bool :=
  match v with
  | some (.str s) => s == t
  | _ => false

/-- `d.get(k, default)` on an insertion-ordered dict. -/
def pyGet (kvs : List (String × Val)) (k : String) (d : Val) : Val :=
  (kvs.lookup k).getD d

/-- `d.get(k)` (default `None`) / `d[k]` at call sites where the key is
known to be present. -/
def lookupD (kvs : List (String × Val)) (k : String) : Val :=
  pyGet kvs k .null

/-- `d[k] = v` on an insertion-ordered dict: an existing key keeps its
position, a new key is appended at the end. -/
def setKey (kvs : List (String × Val)) (k : String) (v : Val) : List (String × Val) :=
  if kvs.any (fun p => p.1 == k) then
    kvs.map (fun p => cond (p.1 == k) (k, v) p)
  else
    kvs ++ [(k, v)]

mutual

/-- Python `repr` of a JSON-like value, approximated for the value shapes
that occur in this program (used when formatting error messages). -/
def pyRepr : Val → String
  | .null => "None"
  | .bool true => "True"
  | .bool false => "False"
  | .int n => toString n
  | .float q => toString q
  | .str s => "'" ++ s ++ "'"
  | .list xs => "[" ++ String.intercalate ", " (pyReprL xs) ++ "]"
  | .obj kvs => "\x7b" ++ String.intercalate ", " (pyReprKV kvs) ++ "\x7d"

/-- `repr` of the elements of a list. -/
def pyReprL : List Val → List String
  | [] => []
  | v :: vs => pyRepr v :: pyReprL vs

/-- `repr` of the entries of a dict. -/
def pyReprKV : List (String × Val) → List String
  | [] => []
  | (k, v) :: kvs => ("'" ++ k ++ "': " ++ pyRepr v) :: pyReprKV kvs

end

/-- Python `str()` of a value: a string prints without quotes, everything
else as its `repr` (f-string semantics). -/
def pyStr : Val → String
  | .str s => s
  | v => pyRepr v

/-- Numeric view of a value (`int`, `float` and `bool` are numbers in
Python); `none` for values whose use in arithmetic raises `TypeError`. -/
def valToRat : Val → Option Rat
  | .int n => some (n : Rat)
  | .float q => some q
  | .bool b => some (if b then 1 else 0)
  | _ => none

/-- Python `int(x)` on a float: truncation toward zero. -/
def pyTrunc (q : Rat) : Int :=
  if 0 ≤ q then q.floor else q.ceil

/-- `v[0]`: first element of a list, first character of a string;
`none` when Python would raise (`IndexError` / `TypeError` / `KeyError`). -/
def pyIndex0 : Val → Option Val
  | .list (x :: _) => some x
  | .str s =>
    match s.data with
    | c :: _ => some (.str (String.mk [c]))
    | [] => none
  | _ => none

/-- The number of iterations of a 1-second-per-iteration
`while time.time() - start_time < timeout` loop, as a function of the
`timeout` value; `none` when comparing would raise `TypeError`. -/
def fuelOf : Val → Option Nat
  | .int n => some n.toNat
  | .float q => some (if q ≤ 0 then 0 else q.ceil.toNat)
  | .bool b => some (if b then 1 else 0)
  | _ => none

/-- `random.randint(0, 2**31 - 1)` as a function of an arbitrary random
source `r`. -/
def randint31 (r : Nat) : Nat := r % 2 ^ 31

/-! ### Base64 (`base64.b64decode` / `base64.b64encode`) -/

/-- Value of one base64 alphabet character. -/
def b64charVal (c : Char) : Option Nat :=
  if 'A' ≤ c ∧ c ≤ 'Z' then some (c.toNat - 65)
  else if 'a' ≤ c ∧ c ≤ 'z' then some (c.toNat - 97 + 26)
  else if '0' ≤ c ∧ c ≤ '9' then some (c.toNat - 48 + 52)
  else if c = '+' then some 62
  else if c = '/' then some 63
  else none

/-- Decode a run of 6-bit values into bytes; a trailing group of one
value is invalid. -/
def b64decodeGroups : List Nat → Option (List Nat)
  | [] => some []
  | [_] => none
  | [a, b] => some [(a * 4 + b / 16) % 256]
  | [a, b, c] => some [(a * 4 + b / 16) % 256, (b * 16 + c / 4) % 256]
  | a :: b :: c :: d :: rest =>
    match b64decodeGroups rest with
    | none => none
    | some bs =>
      some ((a * 4 + b / 16) % 256 :: (b * 16 + c / 4) % 256 ::
            (c * 64 + d) % 256 :: bs)

/-- `base64.b64decode`: non-alphabet characters are discarded, the
padded length must be a multiple of four, `=` marks padding. -/
def b64decode (s : String) : Option (List Nat) :=
  let cs := s.data.filter (fun c => (b64charVal c).isSome || c = '=')
  if cs.length % 4 ≠ 0 then none
  else b64decodeGroups (cs.filterMap b64charVal)

/-- The base64 alphabet. -/
def b64alphabet : List Char :=
  "ABCDEFGHIJKLMNOPQRSTUVWXYZabcdefghijklmnopqrstuvwxyz0123456789+/".data

/-- Character for a 6-bit value. -/
def b64char (n : Nat) : Char := b64alphabet.getD n 'A'

/-- `base64.b64encode(...).decode("utf-8")`. -/
def b64encode : List Nat → String
  | [] => ""
  | [a] =>
    String.mk [b64char (a / 4), b64char (a % 4 * 16)] ++ "=="
  | [a, b] =>
    String.mk [b64char (a / 4), b64char (a % 4 * 16 + b / 16), b64char (b % 16 * 4)] ++ "="
  | a :: b :: c :: rest =>
    String.mk [b64char (a / 4), b64char (a % 4 * 16 + b / 16),
               b64char (b % 16 * 4 + c / 64), b64char (c % 64)] ++ b64encode rest

/-! ### Workflow graphs and the table-driven patch -/

/-- One node of a ComfyUI workflow graph: its `inputs` dict plus the
remaining fields (`class_type`, `_meta`, ...), untouched by the patcher. -/
structure Node where
  inputs : List (String × Val)
  rest : List (String × Val)

/-- A workflow graph: insertion-ordered dict from node id to node. -/
abbrev Workflow := List (String × Node)

/-- `workflow[nid]["inputs"][key] = v` guarded by `if nid in workflow`:
an absent node id is silently skipped, no node is ever added. -/
def setInput (wf : Workflow) (nid key : String) (v : Val) : Workflow :=
  wf.map (fun p => cond (p.1 == nid) (p.1, { p.2 with inputs := setKey p.2.inputs key v }) p)

/-- Apply a sequence of `(node-id, input-key, value)` patch entries in
order (the source's sequence of guarded assignments). -/
def applyPatches (wf : Workflow) : List (String × String × Val) → Workflow
  | [] => wf
  | (nid, key, v) :: ps => applyPatches (setInput wf nid key v) ps

/-- Node ids of a workflow, in order. -/
def keysOf (wf : Workflow) : List String := wf.map (fun p => p.1)

/-- The patched value at `(nid, key)`: `workflow[nid]["inputs"][key]`. -/
def getInput (wf : Workflow) (nid key : String) : Option Val :=
  (wf.lookup nid).bind (fun n => n.inputs.lookup key)

/-! ### Configuration (`DEFAULT_PARAMS`, `DEFAULT_NEGATIVE_PROMPT`) -/

/-- The fixed defaults table (`DEFAULT_PARAMS` in `handler.py`). -/
def DEFAULT_PARAMS : List (String × Val) :=
  [ ("width", .int 720),
    ("height", .int 720),
    ("frame_count", .int 97),
    ("steps", .int 20),
    ("cfg", .float 4),
    ("fps", .int 25),
    ("seed", .null),
    ("timeout", .int 600),
    ("img_compression", .int 33),
    ("i2v_strength_first", .float 1),
    ("i2v_strength_second", .float (7 / 10)) ]

/-- `DEFAULT_NEGATIVE_PROMPT` in `handler.py`. -/
def DEFAULT_NEGATIVE_PROMPT : String :=
  "static, frozen, no movement, still frame, blurry, jittery, morphing, deformed, warping, extra limbs, bad anatomy, watermark, text, overlay, titles, subtitles, glitch, artifact, low quality, distorted face"

/-! ### Exceptions -/

/-- Kind of a raised Python exception. -/
inductive ExcKind where
  | typeError
  | binasciiError
  | runtimeError
  | timeoutError
  | urlError
deriving DecidableEq

/-- A raised Python exception: kind plus `str(e)`. -/
structure PyExc where
  kind : ExcKind
  msg : String

/-- `traceback.format_exc()`, modelled as a formatting of the exception. -/
def formatTraceback (e : PyExc) : String :=
  "Traceback (most recent call last):\n" ++ e.msg

/-! ### Workflow patching (`modify_workflow_generated_audio`,
`modify_workflow_custom_audio`) -/

/-- `seed is None or seed == -1` (the unresolved-seed test). -/
def seedUnresolved : Val → Bool
  | .null => true
  | v => pyEqInt v (-1)

/-- The patch table of `modify_workflow_generated_audio`: the guarded
assignments of lines 224-273 of `handler.py`, in source order. -/
def genPatchTable (params : List (String × Val)) (seed : Val) :
    List (String × String × Val) :=
  [ ("98", "image", .str "input_image.png"),
    ("92:3", "text", lookupD params "prompt"),
    ("92:4", "text", pyGet params "negative_prompt" (.str DEFAULT_NEGATIVE_PROMPT)),
    ("92:11", "noise_seed", seed),
    ("92:67", "noise_seed", seed),
    ("92:62", "value", lookupD params "frame_count"),
    ("92:9", "steps", lookupD params "steps"),
    ("92:47", "cfg", lookupD params "cfg"),
    ("92:22", "frame_rate", lookupD params "fps"),
    ("92:51", "frame_rate", lookupD params "fps"),
    ("92:97", "fps", lookupD params "fps") ]

/-- `modify_workflow_generated_audio(workflow, params)`.  The Python
function mutates `params` in place (writing back a generated seed) and
returns the patched workflow; here both are returned.  `rand` is the
random source consumed by `random.randint(0, 2**31 - 1)`. -/
def modify_workflow_generated_audio (workflow : Workflow)
    (params : List (String × Val)) (rand : Nat) :
    Workflow × List (String × Val) :=
  let seed0 := pyGet params "seed" .null
  let seed : Val := if seedUnresolved seed0 then .int (randint31 rand) else seed0
  let params' := if seedUnresolved seed0 then setKey params "seed" (.int (randint31 rand)) else params
  (applyPatches workflow (genPatchTable params' seed), params')

/-- The patch table of `modify_workflow_custom_audio`: the guarded
assignments of lines 292-342 of `handler.py`, in source order.
`fps` is `params["fps"]` and `fpsR` its numeric value (`float(fps)`). -/
def customPatchTable (params : List (String × Val)) (seed fps : Val) (fpsR : Rat) :
    List (String × String × Val) :=
  [ ("98", "image", .str "input_image.png"),
    ("92:3", "text", lookupD params "prompt"),
    ("92:4", "text", pyGet params "negative_prompt" (.str DEFAULT_NEGATIVE_PROMPT)),
    ("92:11", "noise_seed", seed),
    ("92:67", "noise_seed", seed),
    ("92:9", "steps", lookupD params "steps"),
    ("92:47", "cfg", lookupD params "cfg"),
    ("92:114", "audio", .str "input_audio.mp3"),
    ("92:115", "value", .float fpsR),
    ("92:97", "fps", fps),
    ("92:108", "strength", pyGet params "i2v_strength_second" (.float (7 / 10))) ]

/-- `modify_workflow_custom_audio(workflow, params, audio_duration)`.
Before patching, the source computes
`frame_count = int(audio_duration * fps) + 1` (used only for logging),
which raises `TypeError` when `params["fps"]` is not numeric; that is the
only failure path. -/
def modify_workflow_custom_audio (workflow : Workflow)
    (params : List (String × Val)) (audio_duration : Rat) (rand : Nat) :
    Except PyExc (Workflow × List (String × Val)) :=
  let seed0 := pyGet params "seed" .null
  let seed : Val := if seedUnresolved seed0 then .int (randint31 rand) else seed0
  let params' := if seedUnresolved seed0 then setKey params "seed" (.int (randint31 rand)) else params
  let fps := lookupD params' "fps"
  match valToRat fps with
  | none => .error ⟨.typeError, "unsupported operand type(s) for *"⟩
  | some fpsR =>
    let _frame_count := pyTrunc (audio_duration * fpsR) + 1
    .ok (applyPatches workflow (customPatchTable params' seed fps fpsR), params')

/-! ### Completion polling (`wait_for_completion`) -/

/-- `outputs` of a history entry: node id to node-output dict. -/
abbrev Outputs := List (String × List (String × Val))

/-- One response of `GET /history/{prompt_id}`:
the request raised / returned malformed data (`unreachable`), the history
does not contain the prompt id yet (`notFound`), or the history entry with
its `outputs` and `status` dicts (`found`). -/
inductive PollResp where
  | unreachable
  | notFound
  | found (outputs : Outputs) (status : List (String × Val))

/-- Default for `status.get("messages", [["Unknown error"]])`. -/
def defaultMessages : Val := .list [.list [.str "Unknown error"]]

/-- What one iteration of the polling loop does with one response. -/
inductive PollStep where
  | skip
  | err (msg : String)
  | succ (outputs : Outputs)

/-- The decision taken by the body of the `while` loop of
`wait_for_completion` on one poll response: the error check runs first;
an error status whose `messages` value has no first element raises
`IndexError`/`TypeError`/`KeyError`, which the blanket `except Exception`
swallows, so the iteration is skipped; otherwise non-empty `outputs`
complete the wait. -/
def pollStepOf : PollResp → PollStep
  | .unreachable => .skip
  | .notFound => .skip
  | .found outputs status =>
    if pyEqStrOpt (status.lookup "status_str") "error" then
      match pyIndex0 (pyGet status "messages" defaultMessages) with
      | some m => .err ("Workflow error: " ++ pyStr m)
      | none => .skip
    else if outputs.isEmpty then .skip
    else .succ outputs

/-- The polling loop: iteration `i` runs at second `i`; the loop
condition `time.time() - start_time < timeout` bounds the number of
iterations by `fuel`.  Returns the outcome and the number of polls
performed. -/
def waitLoop (polls : Nat → PollResp) (i : Nat) : Nat → PollStep × Nat
  | 0 => (.skip, i)
  | fuel + 1 =>
    match pollStepOf (polls i) with
    | .skip => waitLoop polls (i + 1) fuel
    | .err m => (.err m, i + 1)
    | .succ o => (.succ o, i + 1)

/-- `wait_for_completion(prompt_id, timeout)`: success returns the
outputs; an error status raises `RuntimeError`; exhausting the timeout
raises `TimeoutError`.  Also returns the number of polls performed. -/
def wait_for_completion (polls : Nat → PollResp) (timeout : Nat) :
    Except PyExc Outputs × Nat :=
  match waitLoop polls 0 timeout with
  | (.succ o, n) => (.ok o, n)
  | (.err m, n) => (.error ⟨.runtimeError, m⟩, n)
  | (.skip, n) =>
    (.error ⟨.timeoutError, "Generation timed out after " ++ toString timeout ++ " seconds"⟩, n)

/-! ### Output-artifact location (`get_output_video`) -/

/-- The filesystem as the handler observes it while extracting output:
existing files with their bytes, the `os.walk("/comfyui/output")`
listing (root, filenames) in walk order, and whether the output
directory exists. -/
structure FS where
  files : List (String × List Nat)
  walk : List (String × List String)
  outputDirPresent : Bool

/-- `os.path.exists`. -/
def fsHasFile (fs : FS) (p : String) : Bool := (fs.files.lookup p).isSome

/-- File contents (`open(filepath, "rb").read()`). -/
def fsContent (fs : FS) (p : String) : List Nat := (fs.files.lookup p).getD []

/-- The structured-metadata keys probed in order (line 428). -/
def videoKeys : List String := ["gifs", "videos", "video", "images", "files"]

/-- `items = node_output[key]; if not isinstance(items, list): items = [items]`. -/
def itemsOf : Val → List Val
  | .list xs => xs
  | v => [v]

/-- The candidate path of one output item: a dict contributes
`subfolder`/`filename` (skipped when `filename` is falsy), a bare string
is a filename, anything else is skipped. -/
def itemPath : Val → Option String
  | .obj kvs =>
    let filename := lookupD kvs "filename"
    let subfolder := pyGet kvs "subfolder" (.str "")
    if pyTruthy filename then
      if pyTruthy subfolder then
        some ("/comfyui/output/" ++ pyStr subfolder ++ "/" ++ pyStr filename)
      else
        some ("/comfyui/output/" ++ pyStr filename)
    else none
  | .str s => if s ≠ "" then some ("/comfyui/output/" ++ s) else none
  | _ => none

/-- Candidate paths reported in one node's output, in probe order. -/
def nodeCandidatePaths (node_output : List (String × Val)) : List String :=
  (videoKeys.map (fun key =>
    match node_output.lookup key with
    | none => []
    | some v => (itemsOf v).filterMap itemPath)).flatten

/-- All candidate paths reported in the status payload, in probe order. -/
def candidatePaths (outputs : Outputs) : List String :=
  (outputs.map (fun p => nodeCandidatePaths p.2)).flatten

/-- Phase one of `get_output_video`: the first reported path that exists
on disk, base64-encoded. -/
def findStructured (outputs : Outputs) (fs : FS) : Option String :=
  match (candidatePaths outputs).find? (fun p => fsHasFile fs p) with
  | some p => some (b64encode (fsContent fs p))
  | none => none

/-- `file.endswith(('.mp4', '.webm', '.gif', '.avi', '.mov'))`. -/
def hasVideoExt (f : String) : Bool :=
  [".mp4", ".webm", ".gif", ".avi", ".mov"].any (fun e => e.data.isSuffixOf f.data)

/-- Lexicographic comparison of char lists (Python string `<`). -/
def charListLt : List Char → List Char → Bool
  | [], [] => false
  | [], _ :: _ => true
  | _ :: _, [] => false
  | a :: as, b :: bs => a < b || (a == b && charListLt as bs)

/-- Python string `<`: lexicographic by code point. -/
def strLt (a b : String) : Bool := charListLt a.data b.data

/-- Stable insertion into a descending list: `x` is placed before the
first element not greater than it. -/
def insertDesc (x : String) : List String → List String
  | [] => [x]
  | y :: ys => if strLt x y then y :: insertDesc x ys else x :: y :: ys

/-- `sorted(files, reverse=True)`: stable descending (reverse
lexicographic) sort. -/
def sortDesc : List String → List String
  | [] => []
  | x :: xs => insertDesc x (sortDesc xs)

/-- One directory of the fallback scan: the first file, in reverse
lexicographic order, with a recognized video extension. -/
def firstVideoIn (fs : FS) (root : String) (files : List String) : Option String :=
  match (sortDesc files).find? hasVideoExt with
  | some f => some (b64encode (fsContent fs (root ++ "/" ++ f)))
  | none => none

/-- Phase two of `get_output_video`: walk the output directory and
return the first match. -/
def scanWalk (fs : FS) : List (String × List String) → Option String
  | [] => none
  | (root, files) :: rest =>
    match firstVideoIn fs root files with
    | some v => some v
    | none => scanWalk fs rest

/-- `get_output_video(outputs)`: structured metadata first; only when no
reported file exists, fall back to scanning the output directory. -/
def get_output_video (outputs : Outputs) (fs : FS) : Option String :=
  match findStructured outputs fs with
  | some v => some v
  | none => if fs.outputDirPresent then scanWalk fs fs.walk else none

/-! ### The handler (`handler`) -/

/-- Observable side effects of one job, in order: the health check
against the server, input-file writes, the `POST /prompt` submission
(carrying the submitted workflow graph), and a batch of `n` polls of the
history endpoint. -/
inductive Effect where
  | healthCheck
  | writeImage (bytes : List Nat)
  | writeAudio (bytes : List Nat)
  | queuePost (wf : Workflow)
  | pollBatch (n : Nat)

/-- The external world of one invocation: server readiness, the
response to `POST /prompt` (`str(e)` of a raised exception, or the
`prompt_id` field of the response), the history-endpoint responses, the
two workflow templates as loaded from disk, the random source, the
ffprobe duration probe (`none` when it fails), the filesystem seen by
output extraction, and the measured wall-clock elapsed time. -/
structure Env where
  comfyReady : Bool
  queueResp : Except String (Option String)
  polls : Nat → PollResp
  templateGen : Workflow
  templateCustom : Workflow
  rand : Nat
  ffprobeDuration : Option Rat
  fs : FS
  elapsed : Rat

/-- Whether `sep` is an initial run of `cs`. -/
def leadsWith : List Char → List Char → Bool
  | [], _ => true
  | _ :: _, [] => false
  | a :: as, b :: bs => a == b && leadsWith as bs

/-- Split at the first occurrence of `sep`: the part before it and the
part after it. -/
def splitFirst (sep : List Char) : List Char → Option (List Char × List Char)
  | [] => none
  | c :: cs =>
    if leadsWith sep (c :: cs) then some ([], (c :: cs).drop sep.length)
    else
      match splitFirst sep cs with
      | some (pre, post) => some (c :: pre, post)
      | none => none

/-- `image_data.split("base64,")[1]` when `"base64," in image_data`
(the segment between the first and second occurrence), else the string
unchanged. -/
def stripDataUrl (s : String) : String :=
  let sep := "base64,".data
  match splitFirst sep s.data with
  | none => s
  | some (_, post) =>
    match splitFirst sep post with
    | none => String.mk post
    | some (mid, _) => String.mk mid

/-- `save_input_image(image_data)`: strip a data-URL prefix, decode the
base64 payload (raising on bad input) and write the bytes to
`/comfyui/input/input_image.png`; returns the written bytes. -/
def save_input_image (image_data : Val) : Except PyExc (List Nat) :=
  match image_data with
  | .str s =>
    match b64decode (stripDataUrl s) with
    | some bs => .ok bs
    | none => .error ⟨.binasciiError, "Invalid base64-encoded string"⟩
  | _ => .error ⟨.typeError, "argument should be a bytes-like object or ASCII string"⟩

/-- `save_input_audio(audio_data)`: like the image, plus an ffprobe
duration probe that falls back to 4.0 seconds on failure. -/
def save_input_audio (audio_data : Val) (env : Env) : Except PyExc (List Nat × Rat) :=
  match audio_data with
  | .str s =>
    match b64decode (stripDataUrl s) with
    | some bs => .ok (bs, env.ffprobeDuration.getD 4)
    | none => .error ⟨.binasciiError, "Invalid base64-encoded string"⟩
  | _ => .error ⟨.typeError, "argument should be a bytes-like object or ASCII string"⟩

/-- `has_custom_audio = "audio" in job_input and job_input["audio"]`:
presence AND truthiness. -/
def hasCustomAudio (ji : List (String × Val)) : Bool :=
  match ji.lookup "audio" with
  | some v => pyTruthy v
  | none => false

/-- `mode = "custom_audio" if has_custom_audio else "generated_audio"`. -/
def modeOf (ji : List (String × Val)) : String :=
  if hasCustomAudio ji then "custom_audio" else "generated_audio"

/-- The `params` dict built at lines 518-531 of `handler.py`, in
insertion order, resolving each optional parameter from `DEFAULT_PARAMS`
(and `negative_prompt` from `DEFAULT_NEGATIVE_PROMPT`). -/
def buildParams (ji : List (String × Val)) : List (String × Val) :=
  [ ("image", lookupD ji "image"),
    ("prompt", lookupD ji "prompt"),
    ("negative_prompt", pyGet ji "negative_prompt" (.str DEFAULT_NEGATIVE_PROMPT)),
    ("width", pyGet ji "width" (lookupD DEFAULT_PARAMS "width")),
    ("height", pyGet ji "height" (lookupD DEFAULT_PARAMS "height")),
    ("frame_count", pyGet ji "frame_count" (lookupD DEFAULT_PARAMS "frame_count")),
    ("steps", pyGet ji "steps" (lookupD DEFAULT_PARAMS "steps")),
    ("cfg", pyGet ji "cfg" (lookupD DEFAULT_PARAMS "cfg")),
    ("fps", pyGet ji "fps" (lookupD DEFAULT_PARAMS "fps")),
    ("seed", pyGet ji "seed" (lookupD DEFAULT_PARAMS "seed")),
    ("timeout", pyGet ji "timeout" (lookupD DEFAULT_PARAMS "timeout")),
    ("i2v_strength_second", pyGet ji "i2v_strength_second" (lookupD DEFAULT_PARAMS "i2v_strength_second")) ]

/-- The `parameters` sub-dict of a success result (before the
`frame_count` write-back). -/
def successParameters (params : List (String × Val)) : List (String × Val) :=
  [ ("prompt", lookupD params "prompt"),
    ("width", lookupD params "width"),
    ("height", lookupD params "height"),
    ("steps", lookupD params "steps"),
    ("cfg", lookupD params "cfg"),
    ("fps", lookupD params "fps") ]

/-- The success result of lines 580-601: base dict, then
`result["audio_duration"]` and `result["parameters"]["frame_count"]`
when `audio_duration` is truthy (non-`None` and non-zero), else
`result["parameters"]["frame_count"] = params["frame_count"]`.
The custom branch computes `int(audio_duration * params["fps"]) + 1`,
which raises when `fps` is not numeric. -/
def successResult (video : String) (params : List (String × Val)) (mode : String)
    (audio_duration : Option Rat) (elapsed : Rat) : Except PyExc (List (String × Val)) :=
  let base : List (String × Val) :=
    [ ("video", .str video),
      ("seed", lookupD params "seed"),
      ("mode", .str mode),
      ("parameters", .obj (successParameters params)),
      ("elapsed_time", .float elapsed) ]
  let genBranch : List (String × Val) :=
    setKey base "parameters"
      (.obj (setKey (successParameters params) "frame_count" (lookupD params "frame_count")))
  match audio_duration with
  | some d =>
    if d ≠ 0 then
      match valToRat (lookupD params "fps") with
      | none => .error ⟨.typeError, "unsupported operand type(s) for *"⟩
      | some fpsR =>
        .ok (setKey (setKey base "audio_duration" (.float d)) "parameters"
          (.obj (setKey (successParameters params) "frame_count"
            (.int (pyTrunc (d * fpsR) + 1)))))
    else .ok genBranch
  | none => .ok genBranch

/-- The tail of the handler after the workflow has been patched: submit
(`queue_prompt`), poll (`wait_for_completion`), extract
(`get_output_video`, with an empty-string video being falsy) and build
the result. -/
def afterQueue (wf : Workflow) (params : List (String × Val)) (mode : String)
    (audio_duration : Option Rat) (env : Env) (effs : List Effect) :
    Except PyExc (List (String × Val)) × List Effect :=
  match env.queueResp with
  | .error msg => (.error ⟨.urlError, msg⟩, effs ++ [.queuePost wf])
  | .ok _prompt_id =>
    match fuelOf (lookupD params "timeout") with
    | none => (.error ⟨.typeError, "'<' not supported between instances"⟩,
               effs ++ [.queuePost wf])
    | some fuel =>
      match wait_for_completion env.polls fuel with
      | (.error e, n) => (.error e, effs ++ [.queuePost wf, .pollBatch n])
      | (.ok outputs, n) =>
        let effs' := effs ++ [.queuePost wf, .pollBatch n]
        match get_output_video outputs env.fs with
        | none => (.ok [("error", .str "No video output generated")], effs')
        | some video =>
          if video = "" then (.ok [("error", .str "No video output generated")], effs')
          else
            match successResult video params mode audio_duration env.elapsed with
            | .error e => (.error e, effs')
            | .ok r => (.ok r, effs')

/-- The body of `handler(job)` inside its `try`: `ji` is the mapping
`job.get("input", {})` (the serverless runtime always passes a dict;
`job["id"]` is only logged).  Validation happens before any HTTP call or
file write; the first effect is the health check. -/
def handlerBody (ji : List (String × Val)) (env : Env) :
    Except PyExc (List (String × Val)) × List Effect :=
  if (ji.lookup "image").isNone then
    (.ok [("error", .str "Missing required field: image")], [])
  else if (ji.lookup "prompt").isNone then
    (.ok [("error", .str "Missing required field: prompt")], [])
  else
    let mode := modeOf ji
    let params := buildParams ji
    if !env.comfyReady then
      (.ok [("error", .str "ComfyUI server not available")], [.healthCheck])
    else
      match save_input_image (lookupD params "image") with
      | .error e => (.error e, [.healthCheck])
      | .ok imgBytes =>
        let effs0 := [Effect.healthCheck, Effect.writeImage imgBytes]
        if hasCustomAudio ji then
          match save_input_audio (lookupD ji "audio") env with
          | .error e => (.error e, effs0)
          | .ok (audioBytes, duration) =>
            match modify_workflow_custom_audio env.templateCustom params duration env.rand with
            | .error e => (.error e, effs0 ++ [.writeAudio audioBytes])
            | .ok (wf, params') =>
              afterQueue wf params' mode (some duration) env (effs0 ++ [.writeAudio audioBytes])
        else
          let wfp := modify_workflow_generated_audio env.templateGen params env.rand
          afterQueue wfp.1 wfp.2 mode none env effs0

/-- `handler(job)`: the single top-level `except Exception` converts any
raised exception into an error result carrying `str(e)`, the formatted
traceback and the elapsed time. -/
def handler (ji : List (String × Val)) (env : Env) :
    List (String × Val) × List Effect :=
  match handlerBody ji env with
  | (.ok r, effs) => (r, effs)
  | (.error e, effs) =>
    ([ ("error", .str e.msg),
       ("traceback", .str (formatTraceback e)),
       ("elapsed_time", .float env.elapsed) ], effs)

/-! ### Patch-target tables -/

/-- The node ids targeted by `modify_workflow_generated_audio`, in
source order. -/
def genTargetIds : List String :=
  ["98", "92:3", "92:4", "92:11", "92:67", "92:62", "92:9", "92:47", "92:22", "92:51", "92:97"]

/-- The node ids targeted by `modify_workflow_custom_audio`, in source
order. -/
def customTargetIds : List String :=
  ["98", "92:3", "92:4", "92:11", "92:67", "92:9", "92:47", "92:114", "92:115", "92:97", "92:108"]

/-! ### Concrete instances used by witnesses and counterexamples -/

/-- A minimal valid job input: empty image payload (decodes to zero
bytes), a prompt, everything else defaulted. -/
def jiMin : List (String × Val) := [("image", .str ""), ("prompt", .str "hello")]

/-- A job input whose `audio` field is present but empty (falsy). -/
def jiAudioEmpty : List (String × Val) :=
  [("image", .str ""), ("prompt", .str "p"), ("audio", .str "")]

/-- `jiMin` plus a small truthy custom-audio payload. -/
def jiMinAudio : List (String × Val) :=
  [("image", .str ""), ("prompt", .str "hello"), ("audio", .str "AAAA")]

/-- Minimal job inputs differing only in `width`/`height`. -/
def jiSize1 : List (String × Val) :=
  [("image", .str ""), ("prompt", .str "p"), ("width", .int 512), ("height", .int 256)]

/-- See `jiSize1`. -/
def jiSize2 : List (String × Val) :=
  [("image", .str ""), ("prompt", .str "p"), ("width", .int 1024), ("height", .int 768)]

/-- A filesystem holding one produced video. -/
def fsOne : FS :=
  ⟨[("/comfyui/output/v.mp4", [0])], [("/comfyui/output", ["v.mp4"])], true⟩

/-- A filesystem holding exactly `a.mp4` and `b.mp4` in the output
directory, scanned in that order. -/
def fsTwo : FS :=
  ⟨[("/comfyui/output/a.mp4", [1]), ("/comfyui/output/b.mp4", [2])],
   [("/comfyui/output", ["a.mp4", "b.mp4"])], true⟩

/-- A server whose first poll already carries non-empty outputs. -/
def pollsOk : Nat → PollResp := fun _ => .found [("9", [("k", .null)])] []

/-- A server reporting `status_str == "error"` with no `messages` field
on every poll. -/
def pollsErr : Nat → PollResp := fun _ => .found [] [("status_str", .str "error")]

/-- A server whose first poll reports `status_str == "error"` with a
present-but-empty `messages` list, and whose second poll carries
outputs. -/
def pollsErrEmptyMsgs : Nat → PollResp := fun i =>
  if i = 0 then .found [("9", [("k", .null)])] [("status_str", .str "error"), ("messages", .list [])]
  else .found [("9", [("k", .null)])] []

/-- A server on whose history the prompt id never appears. -/
def pollsNever : Nat → PollResp := fun _ => .notFound

/-- The result of one concrete custom-audio patch application (seed
initially unresolved), used to witness idempotence. -/
def customOnce : Workflow × List (String × Val) :=
  match modify_workflow_custom_audio [("98", ⟨[], []⟩)] [("fps", .int 25)] 2 7 with
  | .ok x => x
  | .error _ => ([], [])

/-- An environment for a fully successful generated-audio run. -/
def envOk : Env :=
  ⟨true, .ok (some "pid"), pollsOk, [], [], 12345, none, fsOne, 3⟩

/-- `envOk` with the generation server unreachable. -/
def envDown : Env :=
  ⟨false, .ok (some "pid"), pollsOk, [], [], 12345, none, fsOne, 3⟩

/-- `envOk` with an empty filesystem: the job completes but no artifact
is found. -/
def envNoOutput : Env :=
  ⟨true, .ok (some "pid"), pollsOk, [], [], 12345, none, ⟨[], [], false⟩, 3⟩

/-- `envOk` with a server that reports a workflow error. -/
def envErr : Env :=
  ⟨true, .ok (some "pid"), pollsErr, [], [], 12345, none, fsOne, 3⟩

/-! ### Association-list lemmas -/

theorem lookup_eq_none_of_notMem {β : Type} (l : List (String × β)) (k : String)
    (h : k ∉ l.map (fun p => p.1)) : l.lookup k = none := by
  induction l with
  | nil => rfl
  | cons p ps ih =>
    simp only [List.map_cons, List.mem_cons, not_or] at h
    have hk : (k == p.1) = false := by simpa using h.1
    simp only [List.lookup, hk]
    exact ih h.2

theorem lookup_replace_self (kvs : List (String × Val)) (k : String) (v : Val) :
    (kvs.map (fun p => cond (p.1 == k) (k, v) p)).lookup k =
      (kvs.lookup k).map (fun _ => v) := by
  induction kvs with
  | nil => rfl
  | cons p ps ih =>
    by_cases hp : p.1 = k
    · simp [List.lookup, hp, ih]
    · have h1 : (p.1 == k) = false := by simpa using hp
      have h2 : (k == p.1) = false := by simpa using (Ne.symm hp)
      simp [List.lookup, h1, h2, ih]

theorem lookup_append_single (kvs : List (String × Val)) (k : String) (v : Val) :
    (kvs ++ [(k, v)]).lookup k = some ((kvs.lookup k).getD v) := by
  induction kvs with
  | nil => simp [List.lookup]
  | cons p ps ih =>
    by_cases hp : k = p.1
    · simp [List.lookup, hp, ih]
    · have h2 : (k == p.1) = false := by simpa using hp
      simp [List.lookup, h2, ih]

theorem lookup_setKey_self (kvs : List (String × Val)) (k : String) (v : Val) :
    (setKey kvs k v).lookup k = some v := by
  unfold setKey
  by_cases h : kvs.any (fun p => p.1 == k)
  · have hs : (kvs.lookup k).isSome := by
      induction kvs with
      | nil => simp at h
      | cons p ps ih =>
        by_cases hp : p.1 = k
        · simp [List.lookup, hp]
        · have h1 : (p.1 == k) = false := by simpa using hp
          have h2 : (k == p.1) = false := by simpa using (Ne.symm hp)
          simp only [List.any_cons, h1, Bool.false_or] at h
          simp [List.lookup, h2, ih h]
    rw [if_pos h, lookup_replace_self]
    rcases Option.isSome_iff_exists.mp hs with ⟨w, hw⟩
    simp [hw]
  · rw [if_neg h, lookup_append_single]
    have hn : kvs.lookup k = none := by
      induction kvs with
      | nil => rfl
      | cons p ps ih =>
        simp only [List.any_cons, Bool.or_eq_true, not_or] at h
        have h2 : (k == p.1) = false := by
          rcases h with ⟨h1, _⟩
          have : p.1 ≠ k := by simpa using h1
          simpa using (Ne.symm this)
        simp only [List.lookup, h2]
        exact ih (by simpa using h.2)
    simp [hn]

theorem lookup_replace_ne (kvs : List (String × Val)) (k k' : String) (v : Val)
    (h : k' ≠ k) :
    (kvs.map (fun p => cond (p.1 == k) (k, v) p)).lookup k' = kvs.lookup k' := by
  induction kvs with
  | nil => rfl
  | cons p ps ih =>
    by_cases hp : p.1 = k
    · have hk1 : (k' == k) = false := by simpa using h
      have hk2 : (k' == p.1) = false := by rw [hp]; simpa using h
      simp [List.lookup, hp, hk1, hk2, ih]
    · have h1 : (p.1 == k) = false := by simpa using hp
      simp only [List.map_cons, h1, cond_false, List.lookup]
      cases hpk : (k' == p.1) <;> simp [hpk, ih]

theorem lookup_append_single_ne (kvs : List (String × Val)) (k k' : String) (v : Val)
    (h : k' ≠ k) : (kvs ++ [(k, v)]).lookup k' = kvs.lookup k' := by
  induction kvs with
  | nil => simp [List.lookup, show (k' == k) = false by simpa using h]
  | cons p ps ih =>
    simp only [List.cons_append, List.lookup]
    cases hpk : (k' == p.1) <;> simp [hpk, ih]

theorem lookup_setKey_ne (kvs : List (String × Val)) (k k' : String) (v : Val)
    (h : k' ≠ k) : (setKey kvs k v).lookup k' = kvs.lookup k' := by
  unfold setKey
  by_cases ha : kvs.any (fun p => p.1 == k)
  · rw [if_pos ha]; exact lookup_replace_ne kvs k k' v h
  · rw [if_neg ha]; exact lookup_append_single_ne kvs k k' v h

/-! ### Patch lemmas -/

theorem keysOf_setInput (wf : Workflow) (nid key : String) (v : Val) :
    keysOf (setInput wf nid key v) = keysOf wf := by
  unfold keysOf setInput
  rw [List.map_map]
  apply List.map_congr_left
  intro p _
  cases hb : (p.1 == nid) <;> simp [hb, Function.comp]

theorem lookup_setInput_ne (wf : Workflow) (nid key m : String) (v : Val)
    (h : m ≠ nid) : (setInput wf nid key v).lookup m = wf.lookup m := by
  induction wf with
  | nil => rfl
  | cons p ps ih =>
    by_cases hp : p.1 = nid
    · have hb : (p.1 == nid) = true := by simpa using hp
      have hm : (m == p.1) = false := by rw [hp]; simpa using h
      simp [setInput, List.lookup, hb, hm] at *
      exact ih
    · have hb : (p.1 == nid) = false := by simpa using hp
      simp only [setInput, List.map_cons, hb, cond_false, List.lookup] at *
      cases hm : (m == p.1) <;> simp [hm, ih]

theorem lookup_setInput_self (wf : Workflow) (nid key : String) (v : Val) :
    (setInput wf nid key v).lookup nid =
      (wf.lookup nid).map (fun nd => { nd with inputs := setKey nd.inputs key v }) := by
  induction wf with
  | nil => rfl
  | cons p ps ih =>
    by_cases hp : p.1 = nid
    · have hb : (p.1 == nid) = true := by simpa using hp
      have hm : (nid == p.1) = true := by simpa using hp.symm
      simp [setInput, List.lookup, hb, hm] at *
    · have hb : (p.1 == nid) = false := by simpa using hp
      have hm : (nid == p.1) = false := by simpa using (Ne.symm hp)
      simp only [setInput, List.map_cons, hb, cond_false, List.lookup, hm] at *
      exact ih

theorem map_replace_eq_self (m : List (String × Val)) (k : String) (v : Val)
    (h : ∀ p ∈ m, p.1 = k → p = (k, v)) :
    m.map (fun p => cond (p.1 == k) (k, v) p) = m := by
  induction m with
  | nil => rfl
  | cons q qs ih =>
    by_cases hq : q.1 = k
    · have hb : (q.1 == k) = true := by simpa using hq
      have : q = (k, v) := h q (List.mem_cons_self _ _) hq
      simp [hb, this, ih (fun p hp hk => h p (List.mem_cons_of_mem _ hp) hk)]
    · have hb : (q.1 == k) = false := by simpa using hq
      simp [hb, ih (fun p hp hk => h p (List.mem_cons_of_mem _ hp) hk)]

theorem any_key_setKey (l : List (String × Val)) (k : String) (v : Val) :
    (setKey l k v).any (fun p => p.1 == k) = true := by
  unfold setKey
  by_cases ha : l.any (fun p => p.1 == k)
  · rw [if_pos ha]
    rcases List.any_eq_true.mp ha with ⟨p, hp, hpk⟩
    apply List.any_eq_true.mpr
    exact ⟨(k, v), List.mem_map.mpr ⟨p, hp, by simp [hpk]⟩, by simp⟩
  · rw [if_neg ha]
    apply List.any_eq_true.mpr
    exact ⟨(k, v), List.mem_append_right _ (List.mem_singleton.mpr rfl), by simp⟩

theorem setKey_mem_char (l : List (String × Val)) (k : String) (v : Val) :
    ∀ p ∈ setKey l k v, p.1 = k → p = (k, v) := by
  unfold setKey
  by_cases ha : l.any (fun p => p.1 == k)
  · rw [if_pos ha]
    intro p hp hpk
    rcases List.mem_map.mp hp with ⟨q, _, hq⟩
    by_cases hqk : q.1 = k
    · have hb : (q.1 == k) = true := by simpa using hqk
      rw [← hq]; simp [hb]
    · have hb : (q.1 == k) = false := by simpa using hqk
      rw [← hq] at hpk ⊢
      simp [hb] at hpk
      exact absurd hpk hqk
  · rw [if_neg ha]
    intro p hp hpk
    rcases List.mem_append.mp hp with hmem | hmem
    · have hb : (p.1 == k) = true := by simpa using hpk
      exact absurd (List.any_eq_true.mpr ⟨p, hmem, hb⟩) ha
    · simpa using List.mem_singleton.mp hmem

theorem setKey_idem (l : List (String × Val)) (k : String) (v : Val) :
    setKey (setKey l k v) k v = setKey l k v := by
  conv_lhs => rw [setKey]
  rw [if_pos (any_key_setKey l k v)]
  exact map_replace_eq_self _ _ _ (setKey_mem_char l k v)

theorem setInput_idem (wf : Workflow) (nid key : String) (v : Val) :
    setInput (setInput wf nid key v) nid key v = setInput wf nid key v := by
  unfold setInput
  rw [List.map_map]
  apply List.map_congr_left
  intro p _
  by_cases hp : p.1 = nid
  · have hb : (p.1 == nid) = true := by simpa using hp
    simp [Function.comp, hb, setKey_idem]
  · have hb : (p.1 == nid) = false := by simpa using hp
    simp [Function.comp, hb]

theorem setInput_comm (wf : Workflow) (n n' k k' : String) (v v' : Val)
    (h : n ≠ n') :
    setInput (setInput wf n k v) n' k' v' = setInput (setInput wf n' k' v') n k v := by
  unfold setInput
  rw [List.map_map, List.map_map]
  apply List.map_congr_left
  intro p _
  by_cases hp : p.1 = n
  · have hb : (p.1 == n) = true := by simpa using hp
    have hb' : (p.1 == n') = false := by rw [hp]; simpa using h
    simp [Function.comp, hb, hb']
  · have hb : (p.1 == n) = false := by simpa using hp
    cases hb' : (p.1 == n') <;> simp [Function.comp, hb, hb']

theorem keysOf_applyPatches (wf : Workflow) (ps : List (String × String × Val)) :
    keysOf (applyPatches wf ps) = keysOf wf := by
  induction ps generalizing wf with
  | nil => rfl
  | cons e es ih =>
    rw [applyPatches, ih, keysOf_setInput]

theorem lookup_applyPatches_notin (wf : Workflow) (ps : List (String × String × Val))
    (nid : String) (h : nid ∉ ps.map (fun e => e.1)) :
    (applyPatches wf ps).lookup nid = wf.lookup nid := by
  induction ps generalizing wf with
  | nil => rfl
  | cons e es ih =>
    simp only [List.map_cons, List.mem_cons, not_or] at h
    rw [applyPatches, ih _ h.2, lookup_setInput_ne _ _ _ _ _ h.1]

theorem setInput_applyPatches_comm (wf : Workflow) (ps : List (String × String × Val))
    (n k : String) (v : Val) (h : n ∉ ps.map (fun e => e.1)) :
    applyPatches (setInput wf n k v) ps = setInput (applyPatches wf ps) n k v := by
  induction ps generalizing wf with
  | nil => rfl
  | cons e es ih =>
    simp only [List.map_cons, List.mem_cons, not_or] at h
    rw [applyPatches, applyPatches, setInput_comm _ _ _ _ _ _ _ h.1, ih _ h.2]

theorem applyPatches_idem (wf : Workflow) (ps : List (String × String × Val))
    (h : (ps.map (fun e => e.1)).Pairwise (fun a b => a ≠ b)) :
    applyPatches (applyPatches wf ps) ps = applyPatches wf ps := by
  induction ps generalizing wf with
  | nil => rfl
  | cons e es ih =>
    simp only [List.map_cons, List.pairwise_cons] at h
    have hnot : e.1 ∉ es.map (fun e => e.1) := fun hmem => (h.1 _ hmem) rfl
    calc applyPatches (applyPatches wf (e :: es)) (e :: es)
        = applyPatches (setInput (applyPatches (setInput wf e.1 e.2.1 e.2.2) es) e.1 e.2.1 e.2.2) es := rfl
      _ = applyPatches (applyPatches (setInput (setInput wf e.1 e.2.1 e.2.2) e.1 e.2.1 e.2.2) es) es := by
          rw [← setInput_applyPatches_comm (setInput wf e.1 e.2.1 e.2.2) es e.1 e.2.1 e.2.2 hnot]
      _ = applyPatches (applyPatches (setInput wf e.1 e.2.1 e.2.2) es) es := by
          rw [setInput_idem]
      _ = applyPatches (setInput wf e.1 e.2.1 e.2.2) es := ih _ h.2
      _ = applyPatches wf (e :: es) := rfl

/-! ### Parameter-resolution lemmas -/

theorem buildParams_image (ji : List (String × Val)) :
    lookupD (buildParams ji) "image" = lookupD ji "image" := rfl

theorem buildParams_prompt (ji : List (String × Val)) :
    lookupD (buildParams ji) "prompt" = lookupD ji "prompt" := rfl

theorem buildParams_negative_prompt (ji : List (String × Val)) :
    pyGet (buildParams ji) "negative_prompt" (.str DEFAULT_NEGATIVE_PROMPT) =
      pyGet ji "negative_prompt" (.str DEFAULT_NEGATIVE_PROMPT) := rfl

theorem buildParams_width (ji : List (String × Val)) :
    lookupD (buildParams ji) "width" = pyGet ji "width" (.int 720) := rfl

theorem buildParams_height (ji : List (String × Val)) :
    lookupD (buildParams ji) "height" = pyGet ji "height" (.int 720) := rfl

theorem buildParams_frame_count (ji : List (String × Val)) :
    lookupD (buildParams ji) "frame_count" = pyGet ji "frame_count" (.int 97) := rfl

theorem buildParams_steps (ji : List (String × Val)) :
    lookupD (buildParams ji) "steps" = pyGet ji "steps" (.int 20) := rfl

theorem buildParams_cfg (ji : List (String × Val)) :
    lookupD (buildParams ji) "cfg" = pyGet ji "cfg" (.float 4) := rfl

theorem buildParams_fps (ji : List (String × Val)) :
    lookupD (buildParams ji) "fps" = pyGet ji "fps" (.int 25) := rfl

theorem buildParams_seed (ji : List (String × Val)) :
    lookupD (buildParams ji) "seed" = pyGet ji "seed" .null := rfl

theorem buildParams_timeout (ji : List (String × Val)) :
    lookupD (buildParams ji) "timeout" = pyGet ji "timeout" (.int 600) := rfl

theorem buildParams_i2v (ji : List (String × Val)) :
    lookupD (buildParams ji) "i2v_strength_second" =
      pyGet ji "i2v_strength_second" (.float (7 / 10)) := rfl

/-! ### Workflow-modification lemmas -/

theorem genPatchTable_ids (p : List (String × Val)) (s : Val) :
    (genPatchTable p s).map (fun e => e.1) = genTargetIds := rfl

theorem customPatchTable_ids (p : List (String × Val)) (s fps : Val) (fq : Rat) :
    (customPatchTable p s fps fq).map (fun e => e.1) = customTargetIds := rfl

theorem modify_gen_unresolved (wf : Workflow) (p : List (String × Val)) (r : Nat)
    (h : seedUnresolved (pyGet p "seed" .null) = true) :
    modify_workflow_generated_audio wf p r =
      (applyPatches wf
        (genPatchTable (setKey p "seed" (.int (randint31 r))) (.int (randint31 r))),
       setKey p "seed" (.int (randint31 r))) := by
  simp [modify_workflow_generated_audio, h]

theorem modify_gen_resolved (wf : Workflow) (p : List (String × Val)) (r : Nat)
    (h : seedUnresolved (pyGet p "seed" .null) = false) :
    modify_workflow_generated_audio wf p r =
      (applyPatches wf (genPatchTable p (pyGet p "seed" .null)), p) := by
  simp [modify_workflow_generated_audio, h]

theorem seedUnresolved_intCast_false (R : Nat) :
    seedUnresolved (.int (R : Int)) = false := by
  simp only [seedUnresolved, pyEqInt]
  have h : ((R : Int) == (-1 : Int)) = false := by
    apply beq_false_of_ne
    omega
  simp [h]

theorem pyGet_setKey_seed (p : List (String × Val)) (v : Val) :
    pyGet (setKey p "seed" v) "seed" .null = v := by
  unfold pyGet
  rw [lookup_setKey_self]
  rfl

theorem lookup_none_iff {β : Type} (l : List (String × β)) (k : String) :
    l.lookup k = none ↔ k ∉ l.map (fun p => p.1) := by
  constructor
  · intro h hmem
    induction l with
    | nil => simp at hmem
    | cons p ps ih =>
      simp only [List.map_cons, List.mem_cons] at hmem
      rcases hmem with rfl | hmem
      · simp [List.lookup] at h
      · apply ih _ hmem
        by_cases hk : k = p.1
        · subst hk; simp [List.lookup] at h
        · have hb : (k == p.1) = false := by simpa using hk
          simpa [List.lookup, hb] using h
  · exact lookup_eq_none_of_notMem l k

theorem lookup_patched_gen_noise11 (wf : Workflow) (p : List (String × Val)) (s : Val) :
    (applyPatches wf (genPatchTable p s)).lookup "92:11" =
      (wf.lookup "92:11").map (fun nd => { nd with inputs := setKey nd.inputs "noise_seed" s }) := by
  simp only [genPatchTable, applyPatches]
  rw [lookup_setInput_ne _ _ _ _ _ (by decide : ("92:11" : String) ≠ "92:97"),
      lookup_setInput_ne _ _ _ _ _ (by decide : ("92:11" : String) ≠ "92:51"),
      lookup_setInput_ne _ _ _ _ _ (by decide : ("92:11" : String) ≠ "92:22"),
      lookup_setInput_ne _ _ _ _ _ (by decide : ("92:11" : String) ≠ "92:47"),
      lookup_setInput_ne _ _ _ _ _ (by decide : ("92:11" : String) ≠ "92:9"),
      lookup_setInput_ne _ _ _ _ _ (by decide : ("92:11" : String) ≠ "92:62"),
      lookup_setInput_ne _ _ _ _ _ (by decide : ("92:11" : String) ≠ "92:67"),
      lookup_setInput_self,
      lookup_setInput_ne _ _ _ _ _ (by decide : ("92:11" : String) ≠ "92:4"),
      lookup_setInput_ne _ _ _ _ _ (by decide : ("92:11" : String) ≠ "92:3"),
      lookup_setInput_ne _ _ _ _ _ (by decide : ("92:11" : String) ≠ "98")]

theorem lookup_patched_gen_noise67 (wf : Workflow) (p : List (String × Val)) (s : Val) :
    (applyPatches wf (genPatchTable p s)).lookup "92:67" =
      (wf.lookup "92:67").map (fun nd => { nd with inputs := setKey nd.inputs "noise_seed" s }) := by
  simp only [genPatchTable, applyPatches]
  rw [lookup_setInput_ne _ _ _ _ _ (by decide : ("92:67" : String) ≠ "92:97"),
      lookup_setInput_ne _ _ _ _ _ (by decide : ("92:67" : String) ≠ "92:51"),
      lookup_setInput_ne _ _ _ _ _ (by decide : ("92:67" : String) ≠ "92:22"),
      lookup_setInput_ne _ _ _ _ _ (by decide : ("92:67" : String) ≠ "92:47"),
      lookup_setInput_ne _ _ _ _ _ (by decide : ("92:67" : String) ≠ "92:9"),
      lookup_setInput_ne _ _ _ _ _ (by decide : ("92:67" : String) ≠ "92:62"),
      lookup_setInput_self,
      lookup_setInput_ne _ _ _ _ _ (by decide : ("92:67" : String) ≠ "92:11"),
      lookup_setInput_ne _ _ _ _ _ (by decide : ("92:67" : String) ≠ "92:4"),
      lookup_setInput_ne _ _ _ _ _ (by decide : ("92:67" : String) ≠ "92:3"),
      lookup_setInput_ne _ _ _ _ _ (by decide : ("92:67" : String) ≠ "98")]

/-! ### Polling-loop lemmas -/

theorem waitLoop_count_le (polls : Nat → PollResp) (i fuel : Nat) :
    (waitLoop polls i fuel).2 ≤ i + fuel := by
  induction fuel generalizing i with
  | zero => simp [waitLoop]
  | succ f ih =>
    rw [waitLoop]
    cases pollStepOf (polls i) with
    | skip => exact le_trans (ih (i + 1)) (by omega)
    | err m => simp
    | succ o => simp

theorem waitLoop_skip_prefix (polls : Nat → PollResp) (k : Nat) :
    ∀ (i fuel : Nat), k ≤ fuel →
    (∀ j, j < k → pollStepOf (polls (i + j)) = .skip) →
    waitLoop polls i fuel = waitLoop polls (i + k) (fuel - k) := by
  induction k with
  | zero => intro i fuel _ _; simp
  | succ k ih =>
    intro i fuel hk hskip
    obtain ⟨f, rfl⟩ : ∃ f, fuel = f + 1 := ⟨fuel - 1, by omega⟩
    have h0 : pollStepOf (polls i) = .skip := by simpa using hskip 0 (Nat.succ_pos k)
    rw [waitLoop, h0]
    have := ih (i + 1) f (by omega)
      (fun j hj => by
        have := hskip (j + 1) (by omega)
        simpa [Nat.add_assoc, Nat.add_comm 1 j] using this)
    rw [show i + (k + 1) = i + 1 + k by omega, show f + 1 - (k + 1) = f - k by omega]
    exact this

/-! ### Handler-path lemmas -/

theorem afterQueue_run (wf : Workflow) (params : List (String × Val)) (mode : String)
    (ad : Option Rat) (env : Env) (effs : List Effect) (pid : Option String)
    (fuel n : Nat) (outs : Outputs)
    (hq : env.queueResp = .ok pid)
    (hfuel : fuelOf (lookupD params "timeout") = some fuel)
    (hwait : wait_for_completion env.polls fuel = (.ok outs, n)) :
    afterQueue wf params mode ad env effs =
      (match get_output_video outs env.fs with
       | none => (.ok [("error", .str "No video output generated")],
                  effs ++ [.queuePost wf, .pollBatch n])
       | some video =>
         if video = "" then
           (.ok [("error", .str "No video output generated")],
            effs ++ [.queuePost wf, .pollBatch n])
         else
           match successResult video params mode ad env.elapsed with
           | .error e => (.error e, effs ++ [.queuePost wf, .pollBatch n])
           | .ok r => (.ok r, effs ++ [.queuePost wf, .pollBatch n])) := by
  unfold afterQueue
  rw [hq, hfuel]
  dsimp only
  rw [hwait]

theorem isNone_false_of_isSome {α : Type} (o : Option α) (h : o.isSome = true) :
    o.isNone = false := by
  cases o with
  | none => simp at h
  | some a => rfl

theorem handlerBody_gen_to_afterQueue (ji : List (String × Val)) (env : Env)
    (imgV : Val) (bs : List Nat)
    (himg : ji.lookup "image" = some imgV)
    (hpr : (ji.lookup "prompt").isSome = true)
    (haud : hasCustomAudio ji = false)
    (hready : env.comfyReady = true)
    (hdec : save_input_image imgV = .ok bs) :
    handlerBody ji env =
      afterQueue (modify_workflow_generated_audio env.templateGen (buildParams ji) env.rand).1
        (modify_workflow_generated_audio env.templateGen (buildParams ji) env.rand).2
        "generated_audio" none env [Effect.healthCheck, Effect.writeImage bs] := by
  have h1 : (ji.lookup "image").isNone = false := by rw [himg]; rfl
  have h2 : (ji.lookup "prompt").isNone = false := isNone_false_of_isSome _ hpr
  have h3 : lookupD (buildParams ji) "image" = imgV := by
    rw [buildParams_image]
    unfold lookupD pyGet
    rw [himg]
    rfl
  unfold handlerBody
  rw [h1, h2]
  simp only [Bool.false_eq_true, if_false, h3, hdec, hready, haud, modeOf,
    Bool.not_true, Bool.true_eq_false]

theorem modify_gen_params_lookup_ne (wf : Workflow) (p : List (String × Val))
    (r : Nat) (k : String) (hk : k ≠ "seed") :
    lookupD (modify_workflow_generated_audio wf p r).2 k = lookupD p k := by
  cases hseed : seedUnresolved (pyGet p "seed" .null)
  · rw [modify_gen_resolved _ _ _ hseed]
  · rw [modify_gen_unresolved _ _ _ hseed]
    unfold lookupD pyGet
    rw [lookup_setKey_ne _ _ _ _ hk]

theorem lookupD_setKey_seed_ne (p : List (String × Val)) (v : Val) (k : String)
    (hk : k ≠ "seed") : lookupD (setKey p "seed" v) k = lookupD p k := by
  unfold lookupD pyGet
  rw [lookup_setKey_ne _ _ _ _ hk]

theorem modify_custom_resolved (wf : Workflow) (p : List (String × Val))
    (ad : Rat) (r : Nat) (fq : Rat)
    (hseed : seedUnresolved (pyGet p "seed" .null) = false)
    (hfq : valToRat (lookupD p "fps") = some fq) :
    modify_workflow_custom_audio wf p ad r =
      .ok (applyPatches wf (customPatchTable p (pyGet p "seed" .null) (lookupD p "fps") fq), p) := by
  simp [modify_workflow_custom_audio, hseed, hfq]

theorem modify_custom_unresolved (wf : Workflow) (p : List (String × Val))
    (ad : Rat) (r : Nat) (fq : Rat)
    (hseed : seedUnresolved (pyGet p "seed" .null) = true)
    (hfq : valToRat (lookupD p "fps") = some fq) :
    modify_workflow_custom_audio wf p ad r =
      .ok (applyPatches wf
            (customPatchTable (setKey p "seed" (.int (randint31 r)))
              (.int (randint31 r)) (lookupD p "fps") fq),
           setKey p "seed" (.int (randint31 r))) := by
  have hfps' : lookupD (setKey p "seed" (.int (randint31 r))) "fps" = lookupD p "fps" :=
    lookupD_setKey_seed_ne _ _ _ (by decide)
  simp [modify_workflow_custom_audio, hseed, hfps', hfq]

/-! ## Claims -/

/-- Claim C1: for every job request whose input mapping lacks the key
`image` or lacks the key `prompt`, the handler returns an error result
synchronously and performs no HTTP call and no file write (the effect
trace is empty). -/
theorem spec_C1 :
    (∀ (ji : List (String × Val)) (env : Env), ji.lookup "image" = none →
      handler ji env = ([("error", .str "Missing required field: image")], []))
  ∧ (∀ (ji : List (String × Val)) (env : Env), (ji.lookup "image").isSome = true →
      ji.lookup "prompt" = none →
      handler ji env = ([("error", .str "Missing required field: prompt")], [])) := by
  constructor
  · intro ji env h
    unfold handler handlerBody
    rw [h]
    rfl
  · intro ji env h1 h2
    unfold handler handlerBody
    rw [isNone_false_of_isSome _ h1, h2]
    rfl

/-- Witness for C1 at concrete requests. -/
theorem spec_C1_witness :
    handler [("prompt", .str "p")] envOk =
      ([("error", .str "Missing required field: image")], [])
  ∧ handler [("image", .str "")] envOk =
      ([("error", .str "Missing required field: prompt")], []) :=
  ⟨spec_C1.1 _ envOk rfl, spec_C1.2 _ envOk rfl rfl⟩

/-- Counterexample to C5 as stated: the resolved parameter set does not
equal the defaults table exactly — `img_compression` and
`i2v_strength_first` appear in `DEFAULT_PARAMS` but are never resolved
into the parameter set, while `negative_prompt` is resolved from a
constant outside the table. -/
theorem cex_C5 :
    (buildParams jiMin).lookup "img_compression" = none
  ∧ (DEFAULT_PARAMS.lookup "img_compression").isSome = true
  ∧ (buildParams jiMin).lookup "i2v_strength_first" = none
  ∧ (DEFAULT_PARAMS.lookup "i2v_strength_first").isSome = true
  ∧ ((buildParams jiMin).lookup "negative_prompt").isSome = true
  ∧ DEFAULT_PARAMS.lookup "negative_prompt" = none :=
  ⟨rfl, rfl, rfl, rfl, rfl, rfl⟩

/-- Claim C5, amended: for a request supplying only `image` and
`prompt`, the resolved parameter set consists of the two mandatory
fields, `negative_prompt` defaulted from `DEFAULT_NEGATIVE_PROMPT`, and
the nine optional parameters `width`, `height`, `frame_count`, `steps`,
`cfg`, `fps`, `seed`, `timeout`, `i2v_strength_second`, each equal to its
`DEFAULT_PARAMS` entry; the table rows `img_compression` and
`i2v_strength_first` are not resolved into the parameter set. -/
theorem spec_C5 : ∀ (i p : Val),
    buildParams [("image", i), ("prompt", p)] =
      [ ("image", i), ("prompt", p),
        ("negative_prompt", .str DEFAULT_NEGATIVE_PROMPT),
        ("width", .int 720), ("height", .int 720), ("frame_count", .int 97),
        ("steps", .int 20), ("cfg", .float 4), ("fps", .int 25), ("seed", .null),
        ("timeout", .int 600), ("i2v_strength_second", .float (7 / 10)) ]
  ∧ (∀ k, k ∈ ["width", "height", "frame_count", "steps", "cfg", "fps", "seed",
        "timeout", "i2v_strength_second"] →
      (buildParams [("image", i), ("prompt", p)]).lookup k = DEFAULT_PARAMS.lookup k)
  ∧ (buildParams [("image", i), ("prompt", p)]).lookup "img_compression" = none
  ∧ (buildParams [("image", i), ("prompt", p)]).lookup "i2v_strength_first" = none := by
  intro i p
  refine ⟨rfl, ?_, rfl, rfl⟩
  intro k hk
  fin_cases hk <;> rfl

/-- Witness for C5 at a concrete request. -/
theorem spec_C5_witness :
    buildParams jiMin =
      [ ("image", .str ""), ("prompt", .str "hello"),
        ("negative_prompt", .str DEFAULT_NEGATIVE_PROMPT),
        ("width", .int 720), ("height", .int 720), ("frame_count", .int 97),
        ("steps", .int 20), ("cfg", .float 4), ("fps", .int 25), ("seed", .null),
        ("timeout", .int 600), ("i2v_strength_second", .float (7 / 10)) ]
  ∧ (buildParams jiMin).lookup "width" = DEFAULT_PARAMS.lookup "width" :=
  ⟨(spec_C5 (.str "") (.str "hello")).1,
   (spec_C5 (.str "") (.str "hello")).2.1 "width" (by decide)⟩

/-- Counterexample to C9 as stated: a request whose `audio` field is
present (but empty, hence falsy) selects the generated-audio variant,
not the custom-audio one. -/
theorem cex_C9 :
    (jiAudioEmpty.lookup "audio").isSome = true
  ∧ modeOf jiAudioEmpty = "generated_audio" :=
  ⟨rfl, rfl⟩

/-- Claim C9, amended: mode selection is a pure function of the request:
the custom-audio variant is selected exactly when `audio` is present
with a truthy (non-empty) value; an absent or falsy `audio` selects the
generated-audio variant. -/
theorem spec_C9 : ∀ (ji : List (String × Val)),
    (∀ v, ji.lookup "audio" = some v →
      (modeOf ji = "custom_audio" ↔ pyTruthy v = true))
  ∧ (ji.lookup "audio" = none → modeOf ji = "generated_audio") := by
  intro ji
  constructor
  · intro v hv
    unfold modeOf hasCustomAudio
    rw [hv]
    cases hpt : pyTruthy v <;> simp [hpt]
  · intro hv
    unfold modeOf hasCustomAudio
    rw [hv]
    rfl

/-- Witness for C9 at concrete requests. -/
theorem spec_C9_witness :
    modeOf [("audio", .str "x")] = "custom_audio"
  ∧ modeOf [] = "generated_audio" :=
  ⟨((spec_C9 [("audio", .str "x")]).1 (.str "x") rfl).mpr rfl,
   (spec_C9 []).2 rfl⟩

/-- Claim C8: artifact location tries the paths reported in the status
payload first (first existing reported file wins); only when none of
those files exists does it fall back to scanning the output directory;
and with exactly `a.mp4` and `b.mp4` present and no usable structured
metadata it selects `b.mp4` (reverse lexicographic order). -/
theorem spec_C8 :
    (∀ (outs : Outputs) (fs : FS),
      (∀ q ∈ candidatePaths outs, fsHasFile fs q = false) →
      get_output_video outs fs =
        (if fs.outputDirPresent then scanWalk fs fs.walk else none))
  ∧ (∀ (outs : Outputs) (fs : FS) (p : String),
      (candidatePaths outs).find? (fun q => fsHasFile fs q) = some p →
      get_output_video outs fs = some (b64encode (fsContent fs p)))
  ∧ get_output_video [] fsTwo = some (b64encode (fsContent fsTwo "/comfyui/output/b.mp4")) := by
  refine ⟨?_, ?_, rfl⟩
  · intro outs fs h
    unfold get_output_video findStructured
    have hf : (candidatePaths outs).find? (fun q => fsHasFile fs q) = none := by
      apply List.find?_eq_none.mpr
      intro q hq
      simp [h q hq]
    rw [hf]
  · intro outs fs p h
    unfold get_output_video findStructured
    rw [h]

/-- Witness for C8: fallback on empty metadata, and a structured hit. -/
theorem spec_C8_witness :
    get_output_video [] fsOne = (if fsOne.outputDirPresent then scanWalk fsOne fsOne.walk else none)
  ∧ get_output_video [("9", [("gifs", .list [.str "v.mp4"])])] fsOne =
      some (b64encode (fsContent fsOne "/comfyui/output/v.mp4")) :=
  ⟨spec_C8.1 [] fsOne (fun q hq => absurd hq (List.not_mem_nil q)),
   spec_C8.2.1 [("9", [("gifs", .list [.str "v.mp4"])])] fsOne "/comfyui/output/v.mp4" rfl⟩

/-- Counterexample to C2 as stated: the first poll reports
`status_str == "error"` (with a present-but-empty `messages` list), yet
the loop does not terminate with an execution error there — the
`IndexError` from `messages[0]` is swallowed, polling continues, and the
second poll returns success. -/
theorem cex_C2 :
    pollsErrEmptyMsgs 0 =
      .found [("9", [("k", .null)])] [("status_str", .str "error"), ("messages", .list [])]
  ∧ wait_for_completion pollsErrEmptyMsgs 5 = (.ok [("9", [("k", .null)])], 2) :=
  ⟨rfl, rfl⟩

/-- Claim C2, amended: the polling loop performs at most `timeout` polls
(never polling indefinitely) and terminates with exactly one of three
outcomes — an execution error propagating the server's message, as soon
as a poll reports `status_str == "error"` and its (defaulted) `messages`
value has a first element; success, as soon as a poll carries non-empty
outputs without such an error status; or a timeout error once every poll
within the timeout was inconclusive.  A poll reporting an error status
whose `messages` value has no first element is skipped (the indexing
exception is swallowed) and polling continues. -/
theorem spec_C2 : ∀ (polls : Nat → PollResp) (timeout : Nat),
    ((wait_for_completion polls timeout).2 ≤ timeout)
  ∧ (∀ k outs st, k < timeout →
      (∀ j, j < k → pollStepOf (polls j) = .skip) →
      polls k = .found outs st →
      pyEqStrOpt (st.lookup "status_str") "error" = true →
      ∀ m, pyIndex0 (pyGet st "messages" defaultMessages) = some m →
      wait_for_completion polls timeout =
        (.error ⟨.runtimeError, "Workflow error: " ++ pyStr m⟩, k + 1))
  ∧ (∀ k outs st, k < timeout →
      (∀ j, j < k → pollStepOf (polls j) = .skip) →
      polls k = .found outs st →
      pyEqStrOpt (st.lookup "status_str") "error" = false →
      outs.isEmpty = false →
      wait_for_completion polls timeout = (.ok outs, k + 1))
  ∧ ((∀ j, j < timeout → pollStepOf (polls j) = .skip) →
      wait_for_completion polls timeout =
        (.error ⟨.timeoutError,
          "Generation timed out after " ++ toString timeout ++ " seconds"⟩, timeout)) := by
  intro polls timeout
  refine ⟨?_, ?_, ?_, ?_⟩
  · have h := waitLoop_count_le polls 0 timeout
    unfold wait_for_completion
    rcases hW : waitLoop polls 0 timeout with ⟨step, n⟩
    rw [hW] at h
    cases step <;> simpa using h
  · intro k outs st hk hskip hfound herr m hmsg
    have hpre := waitLoop_skip_prefix polls k 0 timeout (le_of_lt hk)
      (fun j hj => by simpa using hskip j hj)
    obtain ⟨f, hf⟩ : ∃ f, timeout - k = f + 1 := ⟨timeout - k - 1, by omega⟩
    have hstep : pollStepOf (polls k) = .err ("Workflow error: " ++ pyStr m) := by
      unfold pollStepOf
      rw [hfound]
      dsimp only
      rw [herr, hmsg]
      simp
    unfold wait_for_completion
    rw [hpre, hf]
    simp only [Nat.zero_add]
    rw [waitLoop, hstep]
  · intro k outs st hk hskip hfound herr houts
    have hpre := waitLoop_skip_prefix polls k 0 timeout (le_of_lt hk)
      (fun j hj => by simpa using hskip j hj)
    obtain ⟨f, hf⟩ : ∃ f, timeout - k = f + 1 := ⟨timeout - k - 1, by omega⟩
    have hstep : pollStepOf (polls k) = .succ outs := by
      unfold pollStepOf
      rw [hfound]
      dsimp only
      rw [herr, houts]
      simp
    unfold wait_for_completion
    rw [hpre, hf]
    simp only [Nat.zero_add]
    rw [waitLoop, hstep]
  · intro hskip
    have hpre := waitLoop_skip_prefix polls timeout 0 timeout le_rfl
      (fun j hj => by simpa using hskip j hj)
    unfold wait_for_completion
    rw [hpre]
    simp [waitLoop]

/-- Witness for C2: all three outcomes at concrete poll sequences. -/
theorem spec_C2_witness :
    wait_for_completion pollsErr 4 =
      (.error ⟨.runtimeError, "Workflow error: " ++ pyStr (.list [.str "Unknown error"])⟩, 1)
  ∧ wait_for_completion pollsOk 3 = (.ok [("9", [("k", .null)])], 1)
  ∧ wait_for_completion pollsNever 2 =
      (.error ⟨.timeoutError, "Generation timed out after " ++ toString 2 ++ " seconds"⟩, 2) := by
  refine ⟨?_, ?_, ?_⟩
  · exact (spec_C2 pollsErr 4).2.1 0 [] [("status_str", .str "error")] (by omega)
      (fun j hj => absurd hj (Nat.not_lt_zero j)) rfl rfl (.list [.str "Unknown error"]) rfl
  · exact (spec_C2 pollsOk 3).2.2.1 0 [("9", [("k", .null)])] [] (by omega)
      (fun j hj => absurd hj (Nat.not_lt_zero j)) rfl rfl rfl
  · exact (spec_C2 pollsNever 2).2.2.2 (fun j _ => rfl)

/-- Counterexample to C4 as stated: the server-unavailable error result
(kind (b)) carries no `elapsed_time` field — it is returned directly
rather than through the top-level exception handler. -/
theorem cex_C4 :
    handler jiMin envDown = ([("error", .str "ComfyUI server not available")], [.healthCheck])
  ∧ (handler jiMin envDown).1.lookup "elapsed_time" = none :=
  ⟨rfl, rfl⟩

/-- Claim C4, amended: the submission, execution and completion-timeout
errors (kinds (c)-(e)) are raised as exceptions and caught exactly once
at the top level, which converts them into an error result carrying the
exception message, a formatted traceback and the elapsed time; the
server-unavailable (b) and missing-output (f) error results are returned
directly and carry only the message, without elapsed time; success
results do include the elapsed time. -/
theorem spec_C4 :
    (∀ (ji : List (String × Val)) (env : Env),
      (ji.lookup "image").isSome = true → (ji.lookup "prompt").isSome = true →
      env.comfyReady = false →
      handler ji env = ([("error", .str "ComfyUI server not available")], [.healthCheck])
      ∧ (handler ji env).1.lookup "elapsed_time" = none)
  ∧ (∀ (ji : List (String × Val)) (env : Env) (imgV : Val) (bs : List Nat)
        (pid : Option String) (fuel n : Nat) (outs : Outputs),
      ji.lookup "image" = some imgV → (ji.lookup "prompt").isSome = true →
      hasCustomAudio ji = false → env.comfyReady = true →
      save_input_image imgV = .ok bs → env.queueResp = .ok pid →
      fuelOf (pyGet ji "timeout" (.int 600)) = some fuel →
      wait_for_completion env.polls fuel = (.ok outs, n) →
      get_output_video outs env.fs = none →
      (handler ji env).1 = [("error", .str "No video output generated")]
      ∧ (handler ji env).1.lookup "elapsed_time" = none)
  ∧ (∀ (ji : List (String × Val)) (env : Env) (e : PyExc) (effs : List Effect),
      handlerBody ji env = (.error e, effs) →
      handler ji env =
        ([("error", .str e.msg), ("traceback", .str (formatTraceback e)),
          ("elapsed_time", .float env.elapsed)], effs))
  ∧ (∀ (ji : List (String × Val)) (env : Env) (imgV : Val) (bs : List Nat)
        (pid : Option String) (fuel n : Nat) (outs : Outputs) (video : String),
      ji.lookup "image" = some imgV → (ji.lookup "prompt").isSome = true →
      hasCustomAudio ji = false → env.comfyReady = true →
      save_input_image imgV = .ok bs → env.queueResp = .ok pid →
      fuelOf (pyGet ji "timeout" (.int 600)) = some fuel →
      wait_for_completion env.polls fuel = (.ok outs, n) →
      get_output_video outs env.fs = some video → video ≠ "" →
      (handler ji env).1.lookup "elapsed_time" = some (.float env.elapsed)) := by
  refine ⟨?_, ?_, ?_, ?_⟩
  · intro ji env h1 h2 hready
    have hr : handler ji env = ([("error", .str "ComfyUI server not available")], [.healthCheck]) := by
      unfold handler handlerBody
      rw [isNone_false_of_isSome _ h1, isNone_false_of_isSome _ h2, hready]
      rfl
    exact ⟨hr, by rw [hr]; rfl⟩
  · intro ji env imgV bs pid fuel n outs himg hpr haud hready hdec hq hfuel hwait hvid
    have hbody := handlerBody_gen_to_afterQueue ji env imgV bs himg hpr haud hready hdec
    have hfuel' : fuelOf
        (lookupD (modify_workflow_generated_audio env.templateGen (buildParams ji) env.rand).2
          "timeout") = some fuel := by
      rw [modify_gen_params_lookup_ne _ _ _ _ (by decide), buildParams_timeout]
      exact hfuel
    have hAQ := afterQueue_run
      (modify_workflow_generated_audio env.templateGen (buildParams ji) env.rand).1
      (modify_workflow_generated_audio env.templateGen (buildParams ji) env.rand).2
      "generated_audio" none env [Effect.healthCheck, Effect.writeImage bs]
      pid fuel n outs hq hfuel' hwait
    have hr : handler ji env = ([("error", .str "No video output generated")],
        [Effect.healthCheck, .writeImage bs,
         .queuePost (modify_workflow_generated_audio env.templateGen (buildParams ji) env.rand).1,
         .pollBatch n]) := by
      unfold handler
      rw [hbody, hAQ, hvid]
      rfl
    exact ⟨by rw [hr], by rw [hr]; rfl⟩
  · intro ji env e effs h
    unfold handler
    rw [h]
  · intro ji env imgV bs pid fuel n outs video himg hpr haud hready hdec hq hfuel hwait hvid hvne
    have hbody := handlerBody_gen_to_afterQueue ji env imgV bs himg hpr haud hready hdec
    have hfuel' : fuelOf
        (lookupD (modify_workflow_generated_audio env.templateGen (buildParams ji) env.rand).2
          "timeout") = some fuel := by
      rw [modify_gen_params_lookup_ne _ _ _ _ (by decide), buildParams_timeout]
      exact hfuel
    have hAQ := afterQueue_run
      (modify_workflow_generated_audio env.templateGen (buildParams ji) env.rand).1
      (modify_workflow_generated_audio env.templateGen (buildParams ji) env.rand).2
      "generated_audio" none env [Effect.healthCheck, Effect.writeImage bs]
      pid fuel n outs hq hfuel' hwait
    unfold handler
    rw [hbody, hAQ, hvid]
    dsimp only
    rw [if_neg hvne]
    rfl

/-- Witness for C4 at concrete runs: server down, missing output,
execution error through the top-level handler, and a success. -/
theorem spec_C4_witness :
    ((handler jiMin envDown).1.lookup "elapsed_time" = none)
  ∧ ((handler jiMin envNoOutput).1 = [("error", .str "No video output generated")])
  ∧ (handler jiMin envErr =
      ([("error", .str ("Workflow error: " ++ pyStr (.list [.str "Unknown error"]))),
        ("traceback", .str (formatTraceback
          ⟨.runtimeError, "Workflow error: " ++ pyStr (.list [.str "Unknown error"])⟩)),
        ("elapsed_time", .float envErr.elapsed)],
       [Effect.healthCheck, .writeImage [],
        .queuePost (modify_workflow_generated_audio envErr.templateGen (buildParams jiMin) envErr.rand).1,
        .pollBatch 1]))
  ∧ ((handler jiMin envOk).1.lookup "elapsed_time" = some (.float envOk.elapsed)) := by
  refine ⟨?_, ?_, ?_, ?_⟩
  · exact (spec_C4.1 jiMin envDown rfl rfl rfl).2
  · exact (spec_C4.2.1 jiMin envNoOutput (.str "") [] (some "pid") 600 1
      [("9", [("k", .null)])] rfl rfl rfl rfl rfl rfl rfl rfl rfl).1
  · exact spec_C4.2.2.1 jiMin envErr
      ⟨.runtimeError, "Workflow error: " ++ pyStr (.list [.str "Unknown error"])⟩
      [Effect.healthCheck, .writeImage [],
       .queuePost (modify_workflow_generated_audio envErr.templateGen (buildParams jiMin) envErr.rand).1,
       .pollBatch 1] rfl
  · exact spec_C4.2.2.2 jiMin envOk (.str "") [] (some "pid") 600 1
      [("9", [("k", .null)])] "AA==" rfl rfl rfl rfl rfl rfl rfl rfl rfl
      (by decide)

/-- The generated-audio success result always echoes `params["seed"]`
and the elapsed time. -/
theorem successResult_none_fields (video : String) (p : List (String × Val))
    (mode : String) (elapsed : Rat) :
    ∃ r, successResult video p mode none elapsed = Except.ok r
      ∧ r.lookup "seed" = some (lookupD p "seed")
      ∧ r.lookup "elapsed_time" = some (.float elapsed) :=
  ⟨_, rfl, rfl, rfl⟩

/-- The custom-audio success result (non-zero duration, numeric fps)
also echoes `params["seed"]` and the elapsed time. -/
theorem successResult_some_fields (video : String) (p : List (String × Val))
    (mode : String) (d elapsed : Rat) (hd : d ≠ 0) (fq : Rat)
    (hv : valToRat (lookupD p "fps") = some fq) :
    ∃ r, successResult video p mode (some d) elapsed = Except.ok r
      ∧ r.lookup "seed" = some (lookupD p "seed")
      ∧ r.lookup "elapsed_time" = some (.float elapsed) := by
  unfold successResult
  dsimp only
  rw [if_pos hd, hv]
  exact ⟨_, rfl, rfl, rfl⟩

theorem handlerBody_custom_to_afterQueue (ji : List (String × Val)) (env : Env)
    (imgV : Val) (bs ab : List Nat) (d : Rat) (wf1 : Workflow) (p1 : List (String × Val))
    (himg : ji.lookup "image" = some imgV)
    (hpr : (ji.lookup "prompt").isSome = true)
    (haud : hasCustomAudio ji = true)
    (hready : env.comfyReady = true)
    (hdec : save_input_image imgV = .ok bs)
    (haudio : save_input_audio (lookupD ji "audio") env = .ok (ab, d))
    (hmod : modify_workflow_custom_audio env.templateCustom (buildParams ji) d env.rand =
      .ok (wf1, p1)) :
    handlerBody ji env =
      afterQueue wf1 p1 "custom_audio" (some d) env
        [Effect.healthCheck, Effect.writeImage bs, Effect.writeAudio ab] := by
  have h1 : (ji.lookup "image").isNone = false := by rw [himg]; rfl
  have h2 : (ji.lookup "prompt").isNone = false := isNone_false_of_isSome _ hpr
  have h3 : lookupD (buildParams ji) "image" = imgV := by
    rw [buildParams_image]
    unfold lookupD pyGet
    rw [himg]
    rfl
  unfold handlerBody
  rw [h1, h2]
  simp only [Bool.false_eq_true, if_false, h3, hdec, hready, haud, modeOf,
    Bool.not_true, Bool.true_eq_false, if_true]
  rw [haudio]
  dsimp only
  rw [hmod]
  rfl

/-- Claim C3: when `seed` is absent or `-1`, the patcher substitutes the
process-generated random value (`randint31` of the random source, which
lies in the unsigned 32-bit range) and that same value is echoed in the
success result's `seed` field; with an explicit resolved seed, the
patched graph is independent of the random source and the noise-seed
nodes `92:11`/`92:67` (when present in the template) receive exactly
that seed value. -/
theorem spec_C3 :
    (∀ (ji : List (String × Val)) (env : Env) (imgV : Val) (bs : List Nat)
        (pid : Option String) (fuel n : Nat) (outs : Outputs) (video : String),
      ji.lookup "image" = some imgV → (ji.lookup "prompt").isSome = true →
      hasCustomAudio ji = false → env.comfyReady = true →
      save_input_image imgV = .ok bs → env.queueResp = .ok pid →
      fuelOf (pyGet ji "timeout" (.int 600)) = some fuel →
      wait_for_completion env.polls fuel = (.ok outs, n) →
      get_output_video outs env.fs = some video → video ≠ "" →
      seedUnresolved (pyGet ji "seed" .null) = true →
      (handler ji env).1.lookup "seed" = some (.int (randint31 env.rand))
      ∧ randint31 env.rand < 2 ^ 32)
  ∧ (∀ (ji : List (String × Val)) (env : Env) (imgV : Val) (bs ab : List Nat)
        (d : Rat) (fq : Rat) (pid : Option String) (fuel n : Nat) (outs : Outputs)
        (video : String),
      ji.lookup "image" = some imgV → (ji.lookup "prompt").isSome = true →
      hasCustomAudio ji = true → env.comfyReady = true →
      save_input_image imgV = .ok bs →
      save_input_audio (lookupD ji "audio") env = .ok (ab, d) →
      seedUnresolved (pyGet ji "seed" .null) = true →
      valToRat (pyGet ji "fps" (.int 25)) = some fq →
      env.queueResp = .ok pid →
      fuelOf (pyGet ji "timeout" (.int 600)) = some fuel →
      wait_for_completion env.polls fuel = (.ok outs, n) →
      get_output_video outs env.fs = some video → video ≠ "" → d ≠ 0 →
      (handler ji env).1.lookup "seed" = some (.int (randint31 env.rand)))
  ∧ (∀ (wf : Workflow) (p : List (String × Val)) (r r' : Nat),
      seedUnresolved (pyGet p "seed" .null) = false →
      modify_workflow_generated_audio wf p r = modify_workflow_generated_audio wf p r'
      ∧ (∀ node, wf.lookup "92:11" = some node →
          getInput (modify_workflow_generated_audio wf p r).1 "92:11" "noise_seed" =
            some (pyGet p "seed" .null))
      ∧ (∀ node, wf.lookup "92:67" = some node →
          getInput (modify_workflow_generated_audio wf p r).1 "92:67" "noise_seed" =
            some (pyGet p "seed" .null)))
  ∧ (∀ (wf : Workflow) (p : List (String × Val)) (ad : Rat) (r r' : Nat) (fq : Rat),
      seedUnresolved (pyGet p "seed" .null) = false →
      valToRat (lookupD p "fps") = some fq →
      modify_workflow_custom_audio wf p ad r = modify_workflow_custom_audio wf p ad r') := by
  refine ⟨?_, ?_, ?_, ?_⟩
  · intro ji env imgV bs pid fuel n outs video himg hpr haud hready hdec hq hfuel hwait hvid hvne hseed
    have hbody := handlerBody_gen_to_afterQueue ji env imgV bs himg hpr haud hready hdec
    have hfuel' : fuelOf
        (lookupD (modify_workflow_generated_audio env.templateGen (buildParams ji) env.rand).2
          "timeout") = some fuel := by
      rw [modify_gen_params_lookup_ne _ _ _ _ (by decide), buildParams_timeout]
      exact hfuel
    have hAQ := afterQueue_run
      (modify_workflow_generated_audio env.templateGen (buildParams ji) env.rand).1
      (modify_workflow_generated_audio env.templateGen (buildParams ji) env.rand).2
      "generated_audio" none env [Effect.healthCheck, Effect.writeImage bs]
      pid fuel n outs hq hfuel' hwait
    have hseedp : seedUnresolved (pyGet (buildParams ji) "seed" .null) = true := hseed
    constructor
    · obtain ⟨r, hr, hrs, _⟩ := successResult_none_fields video
        (modify_workflow_generated_audio env.templateGen (buildParams ji) env.rand).2
        "generated_audio" env.elapsed
      unfold handler
      rw [hbody, hAQ, hvid]
      dsimp only
      rw [if_neg hvne, hr]
      dsimp only
      rw [hrs, modify_gen_unresolved _ _ _ hseedp]
      dsimp only
      unfold lookupD
      rw [pyGet_setKey_seed]
    · have h1 : randint31 env.rand < 2 ^ 31 := Nat.mod_lt _ (by norm_num)
      exact lt_trans h1 (by norm_num)
  · intro ji env imgV bs ab d fq pid fuel n outs video himg hpr haud hready hdec haudio
      hseed hfq hq hfuel hwait hvid hvne hd
    have hseedp : seedUnresolved (pyGet (buildParams ji) "seed" .null) = true := hseed
    have hvp : valToRat (lookupD (buildParams ji) "fps") = some fq := hfq
    have hmod := modify_custom_unresolved env.templateCustom (buildParams ji) d env.rand fq
      hseedp hvp
    have hbody := handlerBody_custom_to_afterQueue ji env imgV bs ab d _ _
      himg hpr haud hready hdec haudio hmod
    have ht : fuelOf (lookupD (setKey (buildParams ji) "seed" (.int (randint31 env.rand)))
        "timeout") = some fuel := by
      rw [lookupD_setKey_seed_ne _ _ _ (by decide), buildParams_timeout]
      exact hfuel
    have hAQ := afterQueue_run
      (applyPatches env.templateCustom
        (customPatchTable (setKey (buildParams ji) "seed" (.int (randint31 env.rand)))
          (.int (randint31 env.rand)) (lookupD (buildParams ji) "fps") fq))
      (setKey (buildParams ji) "seed" (.int (randint31 env.rand)))
      "custom_audio" (some d) env
      [Effect.healthCheck, Effect.writeImage bs, Effect.writeAudio ab]
      pid fuel n outs hq ht hwait
    have hfps1 : valToRat (lookupD (setKey (buildParams ji) "seed"
        (.int (randint31 env.rand))) "fps") = some fq := by
      rw [lookupD_setKey_seed_ne _ _ _ (by decide)]
      exact hvp
    obtain ⟨r, hr, hrs, _⟩ := successResult_some_fields video
      (setKey (buildParams ji) "seed" (.int (randint31 env.rand)))
      "custom_audio" d env.elapsed hd fq hfps1
    unfold handler
    rw [hbody, hAQ, hvid]
    dsimp only
    rw [if_neg hvne, hr]
    dsimp only
    rw [hrs]
    unfold lookupD
    rw [pyGet_setKey_seed]
  · intro wf p r r' hs
    refine ⟨?_, ?_, ?_⟩
    · rw [modify_gen_resolved _ _ _ hs, modify_gen_resolved _ _ _ hs]
    · intro node hnode
      unfold getInput
      rw [modify_gen_resolved _ _ _ hs]
      dsimp only
      rw [lookup_patched_gen_noise11, hnode]
      simp [lookup_setKey_self]
    · intro node hnode
      unfold getInput
      rw [modify_gen_resolved _ _ _ hs]
      dsimp only
      rw [lookup_patched_gen_noise67, hnode]
      simp [lookup_setKey_self]
  · intro wf p ad r r' fq hs hv
    rw [modify_custom_resolved _ _ _ _ _ hs hv, modify_custom_resolved _ _ _ _ _ hs hv]

/-- Witness for C3 at a concrete run and a concrete explicit seed. -/
theorem spec_C3_witness :
    ((handler jiMin envOk).1.lookup "seed" = some (.int (randint31 envOk.rand))
      ∧ randint31 envOk.rand < 2 ^ 32)
  ∧ (handler jiMinAudio envOk).1.lookup "seed" = some (.int (randint31 envOk.rand))
  ∧ modify_workflow_generated_audio [("92:11", ⟨[], []⟩)] [("seed", .int 5)] 1 =
      modify_workflow_generated_audio [("92:11", ⟨[], []⟩)] [("seed", .int 5)] 2
  ∧ getInput (modify_workflow_generated_audio [("92:11", ⟨[], []⟩)] [("seed", .int 5)] 1).1
      "92:11" "noise_seed" = some (pyGet [("seed", .int 5)] "seed" .null)
  ∧ modify_workflow_custom_audio [] [("seed", .int 5), ("fps", .int 25)] 2 1 =
      modify_workflow_custom_audio [] [("seed", .int 5), ("fps", .int 25)] 2 2 := by
  refine ⟨?_, ?_, ?_, ?_, ?_⟩
  · exact spec_C3.1 jiMin envOk (.str "") [] (some "pid") 600 1 [("9", [("k", .null)])]
      "AA==" rfl rfl rfl rfl rfl rfl rfl rfl rfl (by decide) rfl
  · exact spec_C3.2.1 jiMinAudio envOk (.str "") [] [0, 0, 0] 4 25 (some "pid") 600 1
      [("9", [("k", .null)])] "AA==" rfl rfl rfl rfl rfl rfl rfl rfl rfl rfl rfl rfl
      (by decide) (by norm_num)
  · exact (spec_C3.2.2.1 [("92:11", ⟨[], []⟩)] [("seed", .int 5)] 1 2 rfl).1
  · exact (spec_C3.2.2.1 [("92:11", ⟨[], []⟩)] [("seed", .int 5)] 1 2 rfl).2.1 ⟨[], []⟩ rfl
  · exact spec_C3.2.2.2 [] [("seed", .int 5), ("fps", .int 25)] 2 1 2 25 rfl rfl

/-- Claim C6: patching never adds a node and never fails (for the
custom-audio variant, under the data model's requirement that `fps` is
numeric): the patched graph's node ids are exactly the template's, a
patch entry whose node id is absent from the template is silently
skipped (the id remains absent), and every node not targeted by a patch
entry is unchanged. -/
theorem spec_C6 :
    (∀ (wf : Workflow) (p : List (String × Val)) (r : Nat),
      keysOf (modify_workflow_generated_audio wf p r).1 = keysOf wf
      ∧ (∀ nid, nid ∉ genTargetIds →
          ((modify_workflow_generated_audio wf p r).1).lookup nid = wf.lookup nid)
      ∧ (∀ nid, wf.lookup nid = none →
          ((modify_workflow_generated_audio wf p r).1).lookup nid = none))
  ∧ (∀ (wf : Workflow) (p : List (String × Val)) (ad : Rat) (r : Nat) (fq : Rat),
      valToRat (lookupD p "fps") = some fq →
      ∃ wf' p', modify_workflow_custom_audio wf p ad r = .ok (wf', p')
        ∧ keysOf wf' = keysOf wf
        ∧ (∀ nid, nid ∉ customTargetIds → wf'.lookup nid = wf.lookup nid)
        ∧ (∀ nid, wf.lookup nid = none → wf'.lookup nid = none)) := by
  have habsent : ∀ (wf : Workflow) (T : List (String × String × Val)) (nid : String),
      wf.lookup nid = none → (applyPatches wf T).lookup nid = none := by
    intro wf T nid h
    rw [lookup_none_iff] at h ⊢
    have hk : keysOf (applyPatches wf T) = keysOf wf := keysOf_applyPatches _ _
    unfold keysOf at hk
    rw [hk]
    exact h
  constructor
  · intro wf p r
    cases hseed : seedUnresolved (pyGet p "seed" .null)
    · rw [modify_gen_resolved _ _ _ hseed]
      refine ⟨keysOf_applyPatches _ _, ?_, ?_⟩
      · intro nid hnid
        apply lookup_applyPatches_notin
        rw [genPatchTable_ids]
        exact hnid
      · intro nid h
        exact habsent _ _ _ h
    · rw [modify_gen_unresolved _ _ _ hseed]
      refine ⟨keysOf_applyPatches _ _, ?_, ?_⟩
      · intro nid hnid
        apply lookup_applyPatches_notin
        rw [genPatchTable_ids]
        exact hnid
      · intro nid h
        exact habsent _ _ _ h
  · intro wf p ad r fq hfq
    cases hseed : seedUnresolved (pyGet p "seed" .null)
    · refine ⟨_, _, modify_custom_resolved wf p ad r fq hseed hfq, keysOf_applyPatches _ _, ?_, ?_⟩
      · intro nid hnid
        apply lookup_applyPatches_notin
        rw [customPatchTable_ids]
        exact hnid
      · intro nid h
        exact habsent _ _ _ h
    · refine ⟨_, _, modify_custom_unresolved wf p ad r fq hseed hfq, keysOf_applyPatches _ _, ?_, ?_⟩
      · intro nid hnid
        apply lookup_applyPatches_notin
        rw [customPatchTable_ids]
        exact hnid
      · intro nid h
        exact habsent _ _ _ h

/-- Witness for C6 at a concrete template and parameter set. -/
theorem spec_C6_witness :
    keysOf (modify_workflow_generated_audio [("98", ⟨[], []⟩), ("7", ⟨[], []⟩)] [] 3).1 =
      keysOf [("98", ⟨[], []⟩), ("7", ⟨[], []⟩)]
  ∧ ((modify_workflow_generated_audio [("98", ⟨[], []⟩), ("7", ⟨[], []⟩)] [] 3).1).lookup "7" =
      ([("98", ⟨[], []⟩), ("7", ⟨[], []⟩)] : Workflow).lookup "7"
  ∧ ((modify_workflow_generated_audio [("98", ⟨[], []⟩), ("7", ⟨[], []⟩)] [] 3).1).lookup "92:11" = none
  ∧ (∃ wf' p', modify_workflow_custom_audio [("98", ⟨[], []⟩)] [("fps", .int 25)] 2 7 = .ok (wf', p')
      ∧ keysOf wf' = keysOf [("98", ⟨[], []⟩)]) := by
  refine ⟨(spec_C6.1 _ [] 3).1, (spec_C6.1 _ [] 3).2.1 "7" (by decide),
    (spec_C6.1 _ [] 3).2.2 "92:11" rfl, ?_⟩
  obtain ⟨wf', p', hok, hkeys, _, _⟩ := spec_C6.2 [("98", ⟨[], []⟩)] [("fps", .int 25)] 2 7 25 rfl
  exact ⟨wf', p', hok, hkeys⟩

/-- Claim C7: workflow patching is idempotent — applying the patch a
second time, with the parameter object as mutated by the first
application (which records the generated seed) and any fresh random
source, returns the first application's graph and parameters unchanged. -/
theorem spec_C7 :
    (∀ (wf : Workflow) (p : List (String × Val)) (r r' : Nat),
      modify_workflow_generated_audio (modify_workflow_generated_audio wf p r).1
        (modify_workflow_generated_audio wf p r).2 r' =
        modify_workflow_generated_audio wf p r)
  ∧ (∀ (wf : Workflow) (p : List (String × Val)) (ad : Rat) (r r' : Nat)
        (wf1 : Workflow) (p1 : List (String × Val)),
      modify_workflow_custom_audio wf p ad r = .ok (wf1, p1) →
      modify_workflow_custom_audio wf1 p1 ad r' = .ok (wf1, p1)) := by
  have hpairG : ∀ (p : List (String × Val)) (s : Val),
      ((genPatchTable p s).map (fun e => e.1)).Pairwise (fun a b => a ≠ b) := by
    intro p s
    rw [genPatchTable_ids]
    decide
  have hpairC : ∀ (p : List (String × Val)) (s fps : Val) (fq : Rat),
      ((customPatchTable p s fps fq).map (fun e => e.1)).Pairwise (fun a b => a ≠ b) := by
    intro p s fps fq
    rw [customPatchTable_ids]
    decide
  constructor
  · intro wf p r r'
    cases hseed : seedUnresolved (pyGet p "seed" .null)
    · rw [modify_gen_resolved _ _ r hseed, modify_gen_resolved _ _ r' hseed,
        applyPatches_idem _ _ (hpairG _ _)]
    · rw [modify_gen_unresolved _ _ r hseed]
      have hs1 : pyGet (setKey p "seed" (.int (randint31 r))) "seed" .null =
          .int (randint31 r) := pyGet_setKey_seed _ _
      have hres : seedUnresolved
          (pyGet (setKey p "seed" (.int (randint31 r))) "seed" .null) = false := by
        rw [hs1]
        exact seedUnresolved_intCast_false _
      rw [modify_gen_resolved _ _ r' hres, hs1, applyPatches_idem _ _ (hpairG _ _)]
  · intro wf p ad r r' wf1 p1 h
    cases hseed : seedUnresolved (pyGet p "seed" .null)
    · cases hv : valToRat (lookupD p "fps") with
      | none =>
        rw [show modify_workflow_custom_audio wf p ad r =
            .error ⟨.typeError, "unsupported operand type(s) for *"⟩ from by
          simp [modify_workflow_custom_audio, hseed, hv]] at h
        exact absurd h (by simp)
      | some fq =>
        rw [modify_custom_resolved wf p ad r fq hseed hv] at h
        obtain ⟨h1, h2⟩ : applyPatches wf (customPatchTable p (pyGet p "seed" .null)
            (lookupD p "fps") fq) = wf1 ∧ p = p1 := by
          constructor <;> injection h with h' <;> [exact congrArg Prod.fst h';
            exact congrArg Prod.snd h']
        subst h1
        subst h2
        rw [modify_custom_resolved _ _ ad r' fq hseed hv,
          applyPatches_idem _ _ (hpairC _ _ _ _)]
    · cases hv : valToRat (lookupD p "fps") with
      | none =>
        rw [show modify_workflow_custom_audio wf p ad r =
            .error ⟨.typeError, "unsupported operand type(s) for *"⟩ from by
          have hfps' : lookupD (setKey p "seed" (.int (randint31 r))) "fps" = lookupD p "fps" :=
            lookupD_setKey_seed_ne _ _ _ (by decide)
          simp [modify_workflow_custom_audio, hseed, hfps', hv]] at h
        exact absurd h (by simp)
      | some fq =>
        rw [modify_custom_unresolved wf p ad r fq hseed hv] at h
        obtain ⟨h1, h2⟩ : applyPatches wf (customPatchTable (setKey p "seed" (.int (randint31 r)))
              (.int (randint31 r)) (lookupD p "fps") fq) = wf1
            ∧ setKey p "seed" (.int (randint31 r)) = p1 := by
          constructor <;> injection h with h' <;> [exact congrArg Prod.fst h';
            exact congrArg Prod.snd h']
        subst h1
        subst h2
        have hs1 : pyGet (setKey p "seed" (.int (randint31 r))) "seed" .null =
            .int (randint31 r) := pyGet_setKey_seed _ _
        have hres : seedUnresolved
            (pyGet (setKey p "seed" (.int (randint31 r))) "seed" .null) = false := by
          rw [hs1]
          exact seedUnresolved_intCast_false _
        have hfps' : lookupD (setKey p "seed" (.int (randint31 r))) "fps" = lookupD p "fps" :=
          lookupD_setKey_seed_ne _ _ _ (by decide)
        have hv1 : valToRat (lookupD (setKey p "seed" (.int (randint31 r))) "fps") = some fq := by
          rw [hfps']
          exact hv
        rw [modify_custom_resolved _ _ ad r' fq hres hv1, hs1, hfps',
          applyPatches_idem _ _ (hpairC _ _ _ _)]

/-- Witness for C7's custom-audio conjunct at a concrete run (the
generated-audio conjunct has no hypothesis). -/
theorem spec_C7_witness :
    modify_workflow_custom_audio customOnce.1 customOnce.2 2 9 =
      .ok (customOnce.1, customOnce.2) :=
  spec_C7.2 [("98", ⟨[], []⟩)] [("fps", .int 25)] 2 7 9 customOnce.1 customOnce.2 rfl

/-! ### Lemmas for width/height non-interference -/

theorem pyGet_setKey_ne (kvs : List (String × Val)) (k0 : String) (v : Val)
    (k : String) (d : Val) (hk : k ≠ k0) :
    pyGet (setKey kvs k0 v) k d = pyGet kvs k d := by
  unfold pyGet
  rw [lookup_setKey_ne _ _ _ _ hk]

theorem handler_trace (ji : List (String × Val)) (env : Env) :
    (handler ji env).2 = (handlerBody ji env).2 := by
  unfold handler
  rw [show handlerBody ji env = ((handlerBody ji env).1, (handlerBody ji env).2) from rfl]
  cases (handlerBody ji env).1 <;> rfl

theorem afterQueue_trace_congr (wf : Workflow) (p1 p2 : List (String × Val))
    (mode1 mode2 : String) (ad : Option Rat) (env : Env) (effs : List Effect)
    (ht : lookupD p1 "timeout" = lookupD p2 "timeout") :
    (afterQueue wf p1 mode1 ad env effs).2 = (afterQueue wf p2 mode2 ad env effs).2 := by
  unfold afterQueue
  cases env.queueResp with
  | error msg => rfl
  | ok pid =>
    dsimp only
    rw [ht]
    cases fuelOf (lookupD p2 "timeout") with
    | none => rfl
    | some fuel =>
      dsimp only
      rw [show wait_for_completion env.polls fuel =
        ((wait_for_completion env.polls fuel).1, (wait_for_completion env.polls fuel).2) from rfl]
      cases (wait_for_completion env.polls fuel).1 with
      | error e => rfl
      | ok outs =>
        dsimp only
        cases get_output_video outs env.fs with
        | none => rfl
        | some video =>
          dsimp only
          by_cases hv : video = ""
          · rw [if_pos hv, if_pos hv]
          · rw [if_neg hv, if_neg hv]
            cases successResult video p1 mode1 ad env.elapsed <;>
              cases successResult video p2 mode2 ad env.elapsed <;> rfl

theorem modify_custom_params_timeout (wf : Workflow) (p : List (String × Val))
    (ad : Rat) (r : Nat) (res : Workflow × List (String × Val))
    (h : modify_workflow_custom_audio wf p ad r = .ok res) :
    lookupD res.2 "timeout" = lookupD p "timeout" := by
  cases hseed : seedUnresolved (pyGet p "seed" .null)
  · cases hv : valToRat (lookupD p "fps") with
    | none =>
      rw [show modify_workflow_custom_audio wf p ad r =
          .error ⟨.typeError, "unsupported operand type(s) for *"⟩ from by
        simp [modify_workflow_custom_audio, hseed, hv]] at h
      exact absurd h (by simp)
    | some fq =>
      rw [modify_custom_resolved wf p ad r fq hseed hv] at h
      have hr : res.2 = p := by
        injection h with h'
        rw [← h']
      rw [hr]
  · cases hv : valToRat (lookupD p "fps") with
    | none =>
      rw [show modify_workflow_custom_audio wf p ad r =
          .error ⟨.typeError, "unsupported operand type(s) for *"⟩ from by
        have hfps' : lookupD (setKey p "seed" (.int (randint31 r))) "fps" = lookupD p "fps" :=
          lookupD_setKey_seed_ne _ _ _ (by decide)
        simp [modify_workflow_custom_audio, hseed, hfps', hv]] at h
      exact absurd h (by simp)
    | some fq =>
      rw [modify_custom_unresolved wf p ad r fq hseed hv] at h
      have hr : res.2 = setKey p "seed" (.int (randint31 r)) := by
        injection h with h'
        rw [← h']
      rw [hr, lookupD_setKey_seed_ne _ _ _ (by decide)]

theorem modify_custom_typeError_resolved (wf : Workflow) (p : List (String × Val))
    (ad : Rat) (r : Nat)
    (hseed : seedUnresolved (pyGet p "seed" .null) = false)
    (hv : valToRat (lookupD p "fps") = none) :
    modify_workflow_custom_audio wf p ad r =
      .error ⟨.typeError, "unsupported operand type(s) for *"⟩ := by
  simp [modify_workflow_custom_audio, hseed, hv]

theorem modify_custom_typeError_unresolved (wf : Workflow) (p : List (String × Val))
    (ad : Rat) (r : Nat)
    (hseed : seedUnresolved (pyGet p "seed" .null) = true)
    (hv : valToRat (lookupD p "fps") = none) :
    modify_workflow_custom_audio wf p ad r =
      .error ⟨.typeError, "unsupported operand type(s) for *"⟩ := by
  have hfps' : lookupD (setKey p "seed" (.int (randint31 r))) "fps" = lookupD p "fps" :=
    lookupD_setKey_seed_ne _ _ _ (by decide)
  simp [modify_workflow_custom_audio, hseed, hfps', hv]

/-- Claim C10: the workflow graph submitted to the server is independent
of the request's `width` and `height` — for two requests identical
except in those two fields, the whole effect trace (health check, file
writes, the queued workflow graph, polling) is identical, the patched
graphs of both variants are identical, and the two values appear only
echoed in the result's `parameters`. -/
theorem spec_C10 : ∀ (ji1 ji2 : List (String × Val)) (env : Env),
    (∀ k, k ≠ "width" → k ≠ "height" → ji1.lookup k = ji2.lookup k) →
    ((handler ji1 env).2 = (handler ji2 env).2)
  ∧ (∀ (wf : Workflow) (r : Nat),
      (modify_workflow_generated_audio wf (buildParams ji1) r).1 =
        (modify_workflow_generated_audio wf (buildParams ji2) r).1)
  ∧ (∀ (wf : Workflow) (ad : Rat) (r : Nat),
      (modify_workflow_custom_audio wf (buildParams ji1) ad r).map (fun x => x.1) =
        (modify_workflow_custom_audio wf (buildParams ji2) ad r).map (fun x => x.1))
  ∧ (∀ (p : List (String × Val)),
      (successParameters p).lookup "width" = some (lookupD p "width")
      ∧ (successParameters p).lookup "height" = some (lookupD p "height")) := by
  intro ji1 ji2 env hji
  have h_img : ji1.lookup "image" = ji2.lookup "image" := hji _ (by decide) (by decide)
  have h_prompt : ji1.lookup "prompt" = ji2.lookup "prompt" := hji _ (by decide) (by decide)
  have h_neg : ji1.lookup "negative_prompt" = ji2.lookup "negative_prompt" :=
    hji _ (by decide) (by decide)
  have h_frame : ji1.lookup "frame_count" = ji2.lookup "frame_count" :=
    hji _ (by decide) (by decide)
  have h_steps : ji1.lookup "steps" = ji2.lookup "steps" := hji _ (by decide) (by decide)
  have h_cfg : ji1.lookup "cfg" = ji2.lookup "cfg" := hji _ (by decide) (by decide)
  have h_fps : ji1.lookup "fps" = ji2.lookup "fps" := hji _ (by decide) (by decide)
  have h_seed : ji1.lookup "seed" = ji2.lookup "seed" := hji _ (by decide) (by decide)
  have h_timeout : ji1.lookup "timeout" = ji2.lookup "timeout" := hji _ (by decide) (by decide)
  have h_i2v : ji1.lookup "i2v_strength_second" = ji2.lookup "i2v_strength_second" :=
    hji _ (by decide) (by decide)
  have h_audio : ji1.lookup "audio" = ji2.lookup "audio" := hji _ (by decide) (by decide)
  have e_img : lookupD (buildParams ji1) "image" = lookupD (buildParams ji2) "image" := by
    rw [buildParams_image, buildParams_image]
    unfold lookupD pyGet
    rw [h_img]
  have e_prompt : lookupD (buildParams ji1) "prompt" = lookupD (buildParams ji2) "prompt" := by
    rw [buildParams_prompt, buildParams_prompt]
    unfold lookupD pyGet
    rw [h_prompt]
  have e_neg : pyGet (buildParams ji1) "negative_prompt" (.str DEFAULT_NEGATIVE_PROMPT) =
      pyGet (buildParams ji2) "negative_prompt" (.str DEFAULT_NEGATIVE_PROMPT) := by
    rw [buildParams_negative_prompt, buildParams_negative_prompt]
    unfold pyGet
    rw [h_neg]
  have e_frame : lookupD (buildParams ji1) "frame_count" =
      lookupD (buildParams ji2) "frame_count" := by
    rw [buildParams_frame_count, buildParams_frame_count]
    unfold pyGet
    rw [h_frame]
  have e_steps : lookupD (buildParams ji1) "steps" = lookupD (buildParams ji2) "steps" := by
    rw [buildParams_steps, buildParams_steps]
    unfold pyGet
    rw [h_steps]
  have e_cfg : lookupD (buildParams ji1) "cfg" = lookupD (buildParams ji2) "cfg" := by
    rw [buildParams_cfg, buildParams_cfg]
    unfold pyGet
    rw [h_cfg]
  have e_fps : lookupD (buildParams ji1) "fps" = lookupD (buildParams ji2) "fps" := by
    rw [buildParams_fps, buildParams_fps]
    unfold pyGet
    rw [h_fps]
  have e_seed : pyGet (buildParams ji1) "seed" .null = pyGet (buildParams ji2) "seed" .null := by
    have h1 : pyGet ji1 "seed" .null = pyGet ji2 "seed" .null := by
      unfold pyGet
      rw [h_seed]
    exact h1
  have e_timeout : lookupD (buildParams ji1) "timeout" = lookupD (buildParams ji2) "timeout" := by
    rw [buildParams_timeout, buildParams_timeout]
    unfold pyGet
    rw [h_timeout]
  have e_i2v : pyGet (buildParams ji1) "i2v_strength_second" (.float (7 / 10)) =
      pyGet (buildParams ji2) "i2v_strength_second" (.float (7 / 10)) := by
    have h1 : pyGet ji1 "i2v_strength_second" (.float (7 / 10)) =
        pyGet ji2 "i2v_strength_second" (.float (7 / 10)) := by
      unfold pyGet
      rw [h_i2v]
    exact h1
  have tgen : ∀ s, genPatchTable (buildParams ji1) s = genPatchTable (buildParams ji2) s := by
    intro s
    unfold genPatchTable
    rw [e_prompt, e_neg, e_frame, e_steps, e_cfg, e_fps]
  have tgen' : ∀ v s, genPatchTable (setKey (buildParams ji1) "seed" v) s =
      genPatchTable (setKey (buildParams ji2) "seed" v) s := by
    intro v s
    unfold genPatchTable
    rw [lookupD_setKey_seed_ne (buildParams ji1) v "prompt" (by decide),
        lookupD_setKey_seed_ne (buildParams ji2) v "prompt" (by decide),
        pyGet_setKey_ne (buildParams ji1) "seed" v "negative_prompt" _ (by decide),
        pyGet_setKey_ne (buildParams ji2) "seed" v "negative_prompt" _ (by decide),
        lookupD_setKey_seed_ne (buildParams ji1) v "frame_count" (by decide),
        lookupD_setKey_seed_ne (buildParams ji2) v "frame_count" (by decide),
        lookupD_setKey_seed_ne (buildParams ji1) v "steps" (by decide),
        lookupD_setKey_seed_ne (buildParams ji2) v "steps" (by decide),
        lookupD_setKey_seed_ne (buildParams ji1) v "cfg" (by decide),
        lookupD_setKey_seed_ne (buildParams ji2) v "cfg" (by decide),
        lookupD_setKey_seed_ne (buildParams ji1) v "fps" (by decide),
        lookupD_setKey_seed_ne (buildParams ji2) v "fps" (by decide),
        e_prompt, e_neg, e_frame, e_steps, e_cfg, e_fps]
  have tcustom : ∀ s fps fq, customPatchTable (buildParams ji1) s fps fq =
      customPatchTable (buildParams ji2) s fps fq := by
    intro s fps fq
    unfold customPatchTable
    rw [e_prompt, e_neg, e_steps, e_cfg, e_i2v]
  have tcustom' : ∀ v s fps fq, customPatchTable (setKey (buildParams ji1) "seed" v) s fps fq =
      customPatchTable (setKey (buildParams ji2) "seed" v) s fps fq := by
    intro v s fps fq
    unfold customPatchTable
    rw [lookupD_setKey_seed_ne (buildParams ji1) v "prompt" (by decide),
        lookupD_setKey_seed_ne (buildParams ji2) v "prompt" (by decide),
        pyGet_setKey_ne (buildParams ji1) "seed" v "negative_prompt" _ (by decide),
        pyGet_setKey_ne (buildParams ji2) "seed" v "negative_prompt" _ (by decide),
        lookupD_setKey_seed_ne (buildParams ji1) v "steps" (by decide),
        lookupD_setKey_seed_ne (buildParams ji2) v "steps" (by decide),
        lookupD_setKey_seed_ne (buildParams ji1) v "cfg" (by decide),
        lookupD_setKey_seed_ne (buildParams ji2) v "cfg" (by decide),
        pyGet_setKey_ne (buildParams ji1) "seed" v "i2v_strength_second" _ (by decide),
        pyGet_setKey_ne (buildParams ji2) "seed" v "i2v_strength_second" _ (by decide),
        e_prompt, e_neg, e_steps, e_cfg, e_i2v]
  have mgen : ∀ (wf : Workflow) (r : Nat),
      (modify_workflow_generated_audio wf (buildParams ji1) r).1 =
        (modify_workflow_generated_audio wf (buildParams ji2) r).1 := by
    intro wf r
    cases hs1 : seedUnresolved (pyGet (buildParams ji1) "seed" .null)
    · have hs2 : seedUnresolved (pyGet (buildParams ji2) "seed" .null) = false := by
        rw [← e_seed]
        exact hs1
      rw [modify_gen_resolved _ _ _ hs1, modify_gen_resolved _ _ _ hs2]
      dsimp only
      rw [tgen, e_seed]
    · have hs2 : seedUnresolved (pyGet (buildParams ji2) "seed" .null) = true := by
        rw [← e_seed]
        exact hs1
      rw [modify_gen_unresolved _ _ _ hs1, modify_gen_unresolved _ _ _ hs2]
      dsimp only
      rw [tgen']
  have mcustom : ∀ (wf : Workflow) (ad : Rat) (r : Nat),
      (modify_workflow_custom_audio wf (buildParams ji1) ad r).map (fun x => x.1) =
        (modify_workflow_custom_audio wf (buildParams ji2) ad r).map (fun x => x.1) := by
    intro wf ad r
    have e_fps2 : valToRat (lookupD (buildParams ji1) "fps") =
        valToRat (lookupD (buildParams ji2) "fps") := by
      rw [e_fps]
    cases hs1 : seedUnresolved (pyGet (buildParams ji1) "seed" .null)
    · have hs2 : seedUnresolved (pyGet (buildParams ji2) "seed" .null) = false := by
        rw [← e_seed]
        exact hs1
      cases hv1 : valToRat (lookupD (buildParams ji1) "fps") with
      | none =>
        have hv2 : valToRat (lookupD (buildParams ji2) "fps") = none := by
          rw [← e_fps2]
          exact hv1
        rw [modify_custom_typeError_resolved _ _ _ _ hs1 hv1,
            modify_custom_typeError_resolved _ _ _ _ hs2 hv2]
      | some fq =>
        have hv2 : valToRat (lookupD (buildParams ji2) "fps") = some fq := by
          rw [← e_fps2]
          exact hv1
        rw [modify_custom_resolved _ _ _ _ _ hs1 hv1, modify_custom_resolved _ _ _ _ _ hs2 hv2]
        dsimp only [Except.map]
        rw [tcustom, e_seed, e_fps]
    · have hs2 : seedUnresolved (pyGet (buildParams ji2) "seed" .null) = true := by
        rw [← e_seed]
        exact hs1
      cases hv1 : valToRat (lookupD (buildParams ji1) "fps") with
      | none =>
        have hv2 : valToRat (lookupD (buildParams ji2) "fps") = none := by
          rw [← e_fps2]
          exact hv1
        rw [modify_custom_typeError_unresolved _ _ _ _ hs1 hv1,
            modify_custom_typeError_unresolved _ _ _ _ hs2 hv2]
      | some fq =>
        have hv2 : valToRat (lookupD (buildParams ji2) "fps") = some fq := by
          rw [← e_fps2]
          exact hv1
        rw [modify_custom_unresolved _ _ _ _ _ hs1 hv1, modify_custom_unresolved _ _ _ _ _ hs2 hv2]
        dsimp only [Except.map]
        rw [tcustom', e_fps]
  refine ⟨?_, mgen, mcustom, fun p => ⟨rfl, rfl⟩⟩
  rw [handler_trace, handler_trace]
  have hca : hasCustomAudio ji1 = hasCustomAudio ji2 := by
    unfold hasCustomAudio
    rw [h_audio]
  have hmode : modeOf ji1 = modeOf ji2 := by
    unfold modeOf
    rw [hca]
  have haudval : lookupD ji1 "audio" = lookupD ji2 "audio" := by
    unfold lookupD pyGet
    rw [h_audio]
  unfold handlerBody
  dsimp only
  rw [h_img, h_prompt, hca, hmode, haudval, e_img]
  cases hb1 : (ji2.lookup "image").isNone
  · simp only [hb1, Bool.false_eq_true, if_false]
    cases hb2 : (ji2.lookup "prompt").isNone
    · simp only [hb2, Bool.false_eq_true, if_false]
      cases hbr : env.comfyReady
      · simp [hbr]
      · simp only [hbr, Bool.not_true, Bool.false_eq_true, if_false]
        cases hb4 : save_input_image (lookupD (buildParams ji2) "image") with
        | error e => simp [hb4]
        | ok bs =>
          simp only [hb4]
          cases hb5 : hasCustomAudio ji2
          · simp only [hb5, Bool.false_eq_true, if_false]
            rw [mgen env.templateGen env.rand]
            apply afterQueue_trace_congr
            rw [modify_gen_params_lookup_ne _ _ _ _ (by decide),
                modify_gen_params_lookup_ne _ _ _ _ (by decide), e_timeout]
          · simp only [hb5, if_true]
            cases hb6 : save_input_audio (lookupD ji2 "audio") env with
            | error e => simp [hb6]
            | ok pr =>
              obtain ⟨ab, d⟩ := pr
              simp only [hb6]
              cases hb7 : modify_workflow_custom_audio env.templateCustom (buildParams ji1) d env.rand with
              | error e =>
                cases hx : modify_workflow_custom_audio env.templateCustom (buildParams ji2) d env.rand with
                | error e2 => rfl
                | ok pr2 =>
                  exfalso
                  have hm := mcustom env.templateCustom d env.rand
                  rw [hb7, hx] at hm
                  simp [Except.map] at hm
              | ok pr1 =>
                obtain ⟨wf1, p1⟩ := pr1
                cases hx : modify_workflow_custom_audio env.templateCustom (buildParams ji2) d env.rand with
                | error e2 =>
                  exfalso
                  have hm := mcustom env.templateCustom d env.rand
                  rw [hb7, hx] at hm
                  simp [Except.map] at hm
                | ok pr2 =>
                  obtain ⟨wf2, p2⟩ := pr2
                  have hm := mcustom env.templateCustom d env.rand
                  rw [hb7, hx] at hm
                  simp only [Except.map, Except.ok.injEq] at hm
                  dsimp only
                  rw [show wf1 = wf2 from hm]
                  apply afterQueue_trace_congr
                  have ht1 : lookupD p1 "timeout" = lookupD (buildParams ji1) "timeout" :=
                    modify_custom_params_timeout _ _ _ _ (wf1, p1) hb7
                  have ht2 : lookupD p2 "timeout" = lookupD (buildParams ji2) "timeout" :=
                    modify_custom_params_timeout _ _ _ _ (wf2, p2) hx
                  rw [ht1, ht2, e_timeout]
    · simp [hb2]
  · simp [hb1]

/-- Witness for C10 at two concrete requests differing only in size. -/
theorem spec_C10_witness :
    (handler jiSize1 envOk).2 = (handler jiSize2 envOk).2
  ∧ (modify_workflow_generated_audio [] (buildParams jiSize1) 3).1 =
      (modify_workflow_generated_audio [] (buildParams jiSize2) 3).1 := by
  have h := spec_C10 jiSize1 jiSize2 envOk
    (fun k hk1 hk2 => by
      have b1 : (k == "width") = false := by simpa using hk1
      have b2 : (k == "height") = false := by simpa using hk2
      simp [jiSize1, jiSize2, List.lookup, b1, b2])
  exact ⟨h.1, h.2.1 [] 3⟩

end Handler
